import Mathlib

/-!
# gotwilio: IP-messaging client (`ipmessaging.go`)

A shallow embedding of the five IP-messaging operations of the client and of
the request/decode procedure `sendIPMsgRequest` they share.

* Go strings and byte slices are Lean `String`s (sequences of Unicode scalar
  values); Go `int`/`int64` are `Int`, range-checked where the decoder does.
* The HTTP primitives `post`, `get`, `delete` of the `Twilio` receiver are
  fields of the structure `Twilio`: every theorem quantifies over them.
* A Go run either returns or panics (`Outcome`), and leaves a trace of the
  transport calls, body reads and decodes it performed (`Event`).
* `encoding/json` is modelled as the standard library behaves: a
  character-by-character scanner that builds a `JSON` value, and a
  field-table driven decoder that keeps the first type error and carries on.
  A slice inside a decoded struct keeps the stale slots of its backing array
  (`Slice`); a slice an operation returns is the list of its elements.
-/

namespace Gotwilio

/-! ## JSON values and the scanner -/

/-- A JSON value; a number keeps its literal, as the Go decoder does until it
knows the target type. -/
inductive JSON where
  | null : JSON
  | bool (b : Bool) : JSON
  | num (lit : String) : JSON
  | str (s : String) : JSON
  | arr (elems : List JSON) : JSON
  | obj (members : List (String × JSON)) : JSON

/-- An open container on the scanner's stack; the finished parts are kept in
reverse order. -/
inductive Frame where
  | arr (acc : List JSON) : Frame
  | objKey (acc : List (String × JSON)) : Frame
  | objVal (acc : List (String × JSON)) (key : String) : Frame

/-- Position inside a number literal (`stateNeg`, `state0`, `state1`, `stateDot`,
`stateDot0`, `stateE`, `stateESign`, `stateE0` of the Go scanner). -/
inductive NumState where
  | neg | zero | int | dot | frac | e | esign | exp
  deriving DecidableEq

/-- Position inside a string literal: plain text, after a backslash, or inside
the four hex digits of a `\u` escape. -/
inductive StrState where
  | plain : StrState
  | esc : StrState
  | hex (digits : List Nat) : StrState

/-- What the scanner expects next. -/
inductive Mode where
  | beginValue (orClose : Bool) : Mode
  | beginKey (orClose : Bool) : Mode
  | afterKey : Mode
  | afterValue : Mode
  | inString (acc : List Char) (hi : Option Nat) (st : StrState) : Mode
  | inNumber (acc : List Char) (st : NumState) : Mode
  | inLit (rest : List Char) (v : JSON) : Mode

/-- The scanner: its mode, the stack of open containers, and the top-level value
once it is complete. -/
structure Scanner where
  mode : Mode
  stack : List Frame
  top : Option JSON

def isSpace (c : Char) : Bool :=
  c = ' ' || c = '\t' || c = '\r' || c = '\n'

def isDigit (c : Char) : Bool :=
  decide ('0' ≤ c) && decide (c ≤ '9')

def hexVal (c : Char) : Option Nat :=
  if '0' ≤ c ∧ c ≤ '9' then some (c.toNat - 48)
  else if 'a' ≤ c ∧ c ≤ 'f' then some (c.toNat - 87)
  else if 'A' ≤ c ∧ c ≤ 'F' then some (c.toNat - 55)
  else none

/-- The Unicode replacement character U+FFFD. -/
def replacementChar : Char := Char.ofNat 65533

/-- A finished value is attached to the innermost open container, or becomes
the top-level value. -/
def endValue (v : JSON) : List Frame → Option Scanner
  | [] => some ⟨Mode.afterValue, [], some v⟩
  | Frame.arr acc :: rest => some ⟨Mode.afterValue, Frame.arr (v :: acc) :: rest, none⟩
  | Frame.objVal acc key :: rest =>
      some ⟨Mode.afterValue, Frame.objKey ((key, v) :: acc) :: rest, none⟩
  | Frame.objKey _ :: _ => none

/-- A finished string is a key when the innermost container is an object
waiting for one, and a value otherwise. -/
def endString (s : String) : List Frame → Option Scanner
  | Frame.objKey acc :: rest => some ⟨Mode.afterKey, Frame.objVal acc s :: rest, none⟩
  | stack => endValue (JSON.str s) stack

/-- After a value: a comma or the closing bracket of the innermost container;
after the top-level value only white space. -/
def stepAfterValue (stack : List Frame) (top : Option JSON) (c : Char) : Option Scanner :=
  if isSpace c then some ⟨Mode.afterValue, stack, top⟩
  else
    match stack with
    | [] => none
    | Frame.arr acc :: rest =>
        if c = ',' then some ⟨Mode.beginValue false, Frame.arr acc :: rest, none⟩
        else if c = ']' then endValue (JSON.arr acc.reverse) rest
        else none
    | Frame.objKey acc :: rest =>
        if c = ',' then some ⟨Mode.beginKey false, Frame.objKey acc :: rest, none⟩
        else if c = '}' then endValue (JSON.obj acc.reverse) rest
        else none
    | Frame.objVal _ _ :: _ => none

/-- The constant `maxNestingDepth` of the Go scanner. -/
def maxNestingDepth : Nat := 10000

/-- Opening a container (`pushParseState`): with more than `maxNestingDepth`
containers open the scanner reports "exceeded max depth". -/
def pushFrame (mode : Mode) (frame : Frame) (stack : List Frame) : Option Scanner :=
  if stack.length + 1 ≤ maxNestingDepth then some ⟨mode, frame :: stack, none⟩ else none

/-- The start of a value. -/
def stepBeginValue (orClose : Bool) (stack : List Frame) (c : Char) : Option Scanner :=
  if isSpace c then some ⟨Mode.beginValue orClose, stack, none⟩
  else if c = '{' then pushFrame (Mode.beginKey true) (Frame.objKey []) stack
  else if c = '[' then pushFrame (Mode.beginValue true) (Frame.arr []) stack
  else if c = '"' then some ⟨Mode.inString [] none StrState.plain, stack, none⟩
  else if c = '-' then some ⟨Mode.inNumber [c] NumState.neg, stack, none⟩
  else if c = '0' then some ⟨Mode.inNumber [c] NumState.zero, stack, none⟩
  else if isDigit c then some ⟨Mode.inNumber [c] NumState.int, stack, none⟩
  else if c = 't' then some ⟨Mode.inLit ['r', 'u', 'e'] (JSON.bool true), stack, none⟩
  else if c = 'f' then some ⟨Mode.inLit ['a', 'l', 's', 'e'] (JSON.bool false), stack, none⟩
  else if c = 'n' then some ⟨Mode.inLit ['u', 'l', 'l'] JSON.null, stack, none⟩
  else if c = ']' && orClose then
    match stack with
    | Frame.arr _ :: rest => endValue (JSON.arr []) rest
    | _ => none
  else none

/-- The start of an object key. -/
def stepBeginKey (orClose : Bool) (stack : List Frame) (c : Char) : Option Scanner :=
  if isSpace c then some ⟨Mode.beginKey orClose, stack, none⟩
  else if c = '"' then some ⟨Mode.inString [] none StrState.plain, stack, none⟩
  else if c = '}' && orClose then
    match stack with
    | Frame.objKey _ :: rest => endValue (JSON.obj []) rest
    | _ => none
  else none

/-- A pending high surrogate that is not followed by a low one decodes to the
replacement character. -/
def flushHi (acc : List Char) : Option Nat → List Char
  | none => acc
  | some _ => replacementChar :: acc

/-- One UTF-16 code unit from a `\u` escape: a surrogate pair combines, a lone
surrogate becomes the replacement character. -/
def pushUnit (acc : List Char) (hi : Option Nat) (u : Nat) : List Char × Option Nat :=
  match hi with
  | some h =>
      if 56320 ≤ u ∧ u < 57344 then
        (Char.ofNat (65536 + (h - 55296) * 1024 + (u - 56320)) :: acc, none)
      else if 55296 ≤ u ∧ u < 56320 then (replacementChar :: acc, some u)
      else (Char.ofNat u :: replacementChar :: acc, none)
  | none =>
      if 55296 ≤ u ∧ u < 56320 then (acc, some u)
      else if 56320 ≤ u ∧ u < 57344 then (replacementChar :: acc, none)
      else (Char.ofNat u :: acc, none)

/-- The character a single-letter escape stands for. -/
def escapeChar (c : Char) : Option Char :=
  if c = 'b' then some (Char.ofNat 8)
  else if c = 'f' then some (Char.ofNat 12)
  else if c = 'n' then some '\n'
  else if c = 'r' then some '\r'
  else if c = 't' then some '\t'
  else if c = '\\' then some '\\'
  else if c = '/' then some '/'
  else if c = '"' then some '"'
  else none

/-- Inside a string literal. -/
def stepInString (acc : List Char) (hi : Option Nat) (st : StrState) (stack : List Frame)
    (c : Char) : Option Scanner :=
  match st with
  | StrState.plain =>
      if c = '"' then endString (String.mk (flushHi acc hi).reverse) stack
      else if c = '\\' then some ⟨Mode.inString acc hi StrState.esc, stack, none⟩
      else if c.toNat < 32 then none
      else some ⟨Mode.inString (c :: flushHi acc hi) none StrState.plain, stack, none⟩
  | StrState.esc =>
      if c = 'u' then some ⟨Mode.inString acc hi (StrState.hex []), stack, none⟩
      else
        match escapeChar c with
        | some x => some ⟨Mode.inString (x :: flushHi acc hi) none StrState.plain, stack, none⟩
        | none => none
  | StrState.hex ds =>
      match hexVal c with
      | none => none
      | some d =>
          match ds with
          | [a, b, e] =>
              let r := pushUnit acc hi (((a * 16 + b) * 16 + e) * 16 + d)
              some ⟨Mode.inString r.1 r.2 StrState.plain, stack, none⟩
          | _ => some ⟨Mode.inString acc hi (StrState.hex (ds ++ [d])), stack, none⟩

/-- A number literal may end in these positions. -/
def NumState.accepting : NumState → Bool
  | NumState.zero | NumState.int | NumState.frac | NumState.exp => true
  | _ => false

/-- The number literal is finished and becomes a value. -/
def endNumber (acc : List Char) (stack : List Frame) : Option Scanner :=
  endValue (JSON.num (String.mk acc.reverse)) stack

/-- Inside a number literal; the character that ends the literal is then read
as what follows a value. -/
def stepInNumber (acc : List Char) (st : NumState) (stack : List Frame) (c : Char) :
    Option Scanner :=
  let continueWith (st' : NumState) : Option Scanner :=
    some ⟨Mode.inNumber (c :: acc) st', stack, none⟩
  let finish : Option Scanner :=
    match endNumber acc stack with
    | some s => stepAfterValue s.stack s.top c
    | none => none
  match st with
  | NumState.neg =>
      if c = '0' then continueWith NumState.zero
      else if isDigit c then continueWith NumState.int
      else none
  | NumState.zero =>
      if c = '.' then continueWith NumState.dot
      else if c = 'e' || c = 'E' then continueWith NumState.e
      else finish
  | NumState.int =>
      if isDigit c then continueWith NumState.int
      else if c = '.' then continueWith NumState.dot
      else if c = 'e' || c = 'E' then continueWith NumState.e
      else finish
  | NumState.dot => if isDigit c then continueWith NumState.frac else none
  | NumState.frac =>
      if isDigit c then continueWith NumState.frac
      else if c = 'e' || c = 'E' then continueWith NumState.e
      else finish
  | NumState.e =>
      if c = '+' || c = '-' then continueWith NumState.esign
      else if isDigit c then continueWith NumState.exp
      else none
  | NumState.esign => if isDigit c then continueWith NumState.exp else none
  | NumState.exp => if isDigit c then continueWith NumState.exp else finish

/-- One character of input. -/
def step (s : Scanner) (c : Char) : Option Scanner :=
  match s.mode with
  | Mode.beginValue orClose => stepBeginValue orClose s.stack c
  | Mode.beginKey orClose => stepBeginKey orClose s.stack c
  | Mode.afterKey =>
      if isSpace c then some s
      else if c = ':' then some ⟨Mode.beginValue false, s.stack, none⟩
      else none
  | Mode.afterValue => stepAfterValue s.stack s.top c
  | Mode.inString acc hi st => stepInString acc hi st s.stack c
  | Mode.inNumber acc st => stepInNumber acc st s.stack c
  | Mode.inLit rest v =>
      match rest with
      | [] => none
      | [r] => if c = r then endValue v s.stack else none
      | r :: more => if c = r then some ⟨Mode.inLit more v, s.stack, none⟩ else none

/-- The scanner run over the whole input. -/
def scan (s : Scanner) : List Char → Option Scanner
  | [] => some s
  | c :: cs =>
      match step s c with
      | none => none
      | some s' => scan s' cs

/-- End of input: the top-level value must be complete (a number at top level
ends here). -/
def eof (s : Scanner) : Option JSON :=
  match s.mode, s.stack with
  | Mode.afterValue, [] => s.top
  | Mode.inNumber acc st, [] => if st.accepting then some (JSON.num (String.mk acc.reverse)) else none
  | _, _ => none

/-- The JSON value of a text, `none` when the text is not valid JSON (the case
in which `json.Unmarshal` reports a `*json.SyntaxError`). -/
def parseJSON (data : String) : Option JSON :=
  match scan ⟨Mode.beginValue false, [], none⟩ data.toList with
  | none => none
  | some s => eof s

/-! ## Go errors and the `encoding/json` decoder -/

/-- The Go `error` values that occur: whatever the HTTP primitive or the body
reader reports, the two errors of `json.Unmarshal`, and `errors.New`. -/
inductive GoError where
  | transport (msg : String) : GoError
  | SyntaxError : GoError
  | UnmarshalTypeError (value : String) (goType : String) : GoError
  | errorsNew (text : String) : GoError
  deriving DecidableEq, Repr

/-- Decoding one JSON value into a Go variable: the variable's new contents and
the first type error met, if any. -/
abbrev Store (σ : Type) := JSON → σ → σ × Option GoError

/-- How `UnmarshalTypeError.Value` names a JSON value. -/
def jsonKind : JSON → String
  | JSON.null => "null"
  | JSON.bool _ => "bool"
  | JSON.num _ => "number"
  | JSON.str _ => "string"
  | JSON.arr _ => "array"
  | JSON.obj _ => "object"

/-- The decoder keeps the earliest error (`decodeState.saveError`). -/
def saveError (saved e : Option GoError) : Option GoError :=
  match saved with
  | some x => some x
  | none => e

/-- A JSON string is stored, `null` leaves the variable alone, anything else is
a type error and leaves it alone too. -/
def storeString : Store String
  | JSON.str s, _ => (s, none)
  | JSON.null, cur => (cur, none)
  | j, cur => (cur, some (GoError.UnmarshalTypeError (jsonKind j) "string"))

def storeBool : Store Bool
  | JSON.bool b, _ => (b, none)
  | JSON.null, cur => (cur, none)
  | j, cur => (cur, some (GoError.UnmarshalTypeError (jsonKind j) "bool"))

/-- The value of `strconv.ParseInt(lit, 10, 64)` on a JSON number literal. -/
def parseInt64 (lit : String) : Option Int :=
  let digits (neg : Bool) (ds : List Char) : Option Int :=
    if ds ≠ [] ∧ ds.all isDigit = true then
      let n : Nat := ds.foldl (fun a c => a * 10 + (c.toNat - 48)) 0
      let v : Int := if neg then -(n : Int) else (n : Int)
      if -9223372036854775808 ≤ v ∧ v ≤ 9223372036854775807 then some v else none
    else none
  match lit.toList with
  | '-' :: ds => digits true ds
  | ds => digits false ds

def storeInt64 : Store Int
  | JSON.num lit, cur =>
      match parseInt64 lit with
      | some n => (n, none)
      | none => (cur, some (GoError.UnmarshalTypeError ("number " ++ lit) "int64"))
  | JSON.null, cur => (cur, none)
  | j, cur => (cur, some (GoError.UnmarshalTypeError (jsonKind j) "int64"))

/-- A struct field as the decoder sees it: its JSON name (the struct tag) and
how a value is stored into it. -/
structure Field (σ : Type) where
  name : String
  store : Store σ

/-- The field of a struct given by its getter and setter. -/
def mkField {σ α : Type} (name : String) (get : σ → α) (set : σ → α → σ) (st : Store α) :
    Field σ :=
  ⟨name, fun j v => let r := st j (get v); (set v r.1, r.2)⟩

/-- The fields the decoder uses: when several tagged fields of one struct
carry the same JSON name, none of them dominates and all are dropped
(`dominantField`). -/
def typeFields {σ : Type} (fs : List (Field σ)) : List (Field σ) :=
  fs.filter fun f => decide ((fs.filter fun g => decide (g.name = f.name)).length = 1)

/-- Case folding of one rune, exact for comparison with ASCII names: besides
the ASCII letters only U+017F and U+212A fold to an ASCII letter. -/
def foldRune (c : Char) : Char :=
  if 'a' ≤ c ∧ c ≤ 'z' then Char.ofNat (c.toNat - 32)
  else if c.toNat = 383 then 'S'
  else if c.toNat = 8490 then 'K'
  else c

def foldName (s : String) : String := String.mk (s.toList.map foldRune)

/-- The field an object key addresses: the one with exactly that name, else
the first whose name matches case-insensitively. -/
def findField {σ : Type} (fs : List (Field σ)) (key : String) : Option (Field σ) :=
  match fs.find? fun f => decide (f.name = key) with
  | some f => some f
  | none => fs.find? fun f => decide (foldName f.name = foldName key)

/-- The members of a JSON object are stored one after the other; unknown keys
are skipped, a later duplicate overwrites. -/
def object {σ : Type} (fs : List (Field σ)) :
    List (String × JSON) → σ → Option GoError → σ × Option GoError
  | [], v, saved => (v, saved)
  | (key, j) :: rest, v, saved =>
      match findField fs key with
      | none => object fs rest v saved
      | some f =>
          let r := f.store j v
          object fs rest r.1 (saveError saved r.2)

/-- A JSON object is decoded field by field into the struct, `null` leaves it
alone, anything else is a type error. -/
def storeStruct {σ : Type} (goType : String) (fs : List (Field σ)) : Store σ
  | JSON.obj members, cur => object (typeFields fs) members cur none
  | JSON.null, cur => (cur, none)
  | j, cur => (cur, some (GoError.UnmarshalTypeError (jsonKind j) goType))

/-- A Go slice as the decoder handles it: its elements, and the slots of its
backing array beyond its length that still hold what an earlier decode wrote
there. Every other slot of the backing array is zero. The nil slice and the
empty slice both have no elements. -/
structure Slice (α : Type) where
  elems : List α := []
  spare : List α := []
  deriving DecidableEq, Repr

/-- The elements of a JSON array are decoded one after the other, the i-th into
slot i of the backing array as it is: into the element already there, into
what an earlier decode left there, or into a zero value where the slot is
fresh. -/
def array {α : Type} (zero : α) (elem : Store α) : List JSON → List α → List α × Option GoError
  | [], _ => ([], none)
  | j :: rest, slots =>
      let r := elem j (slots.headD zero)
      let rs := array zero elem rest slots.tail
      (r.1 :: rs.1, saveError r.2 rs.2)

/-- A JSON array is decoded slot by slot and the slice is cut or grown to the
array's length, the slots beyond staying as they are; an empty array gives a
fresh empty slice and `null` the nil slice; anything else is a type error. -/
def storeSlice {α : Type} (goType : String) (zero : α) (elem : Store α) : Store (Slice α)
  | JSON.arr [], _ => (⟨[], []⟩, none)
  | JSON.arr elems, cur =>
      let r := array zero elem elems (cur.elems ++ cur.spare)
      (⟨r.1, (cur.elems ++ cur.spare).drop elems.length⟩, r.2)
  | JSON.null, _ => (⟨[], []⟩, none)
  | j, cur => (cur, some (GoError.UnmarshalTypeError (jsonKind j) goType))

/-- The call `json.Unmarshal(data, &v)`: a text that is not valid JSON is a
syntax error and leaves `v` untouched; otherwise the value is stored into `v`
and the first type error, if any, is returned. -/
def Unmarshal {σ : Type} (store : Store σ) (data : String) (v : σ) : σ × Option GoError :=
  match parseJSON data with
  | none => (v, some GoError.SyntaxError)
  | some j => store j v

/-! ## The records of `ipmessaging.go` and their struct tags -/

def IPMsgURL : String := "https://ip-messaging.twilio.com/v1"

def IPMsgChannelTypePublic : String := "public"

def IPMsgChannelTypePrivate : String := "private"

/-- The record `IPMessageChannel`; its field `Type` is spelled `Type_`. -/
structure IPMessageChannel where
  Sid : String := ""
  AccountSid : String := ""
  ServiceSid : String := ""
  FriendlyName : String := ""
  Attributes : String := ""
  Type_ : String := ""
  DateCreated : String := ""
  DateUpdated : String := ""
  CreatedBy : String := ""
  Url : String := ""
  deriving DecidableEq, Repr

structure IPMessageMeta where
  Page : Int := 0
  PageSize : Int := 0
  FirstPageUrl : String := ""
  PreviousPageUrl : String := ""
  Url : String := ""
  NextPageUrl : String := ""
  Key : String := ""
  deriving DecidableEq, Repr

structure IPMessage where
  Sid : String := ""
  AccountSid : String := ""
  ServiceSid : String := ""
  To : String := ""
  DateCreated : String := ""
  DateUpdated : String := ""
  WasEdited : Bool := false
  From : String := ""
  Body : String := ""
  Url : String := ""
  deriving DecidableEq, Repr

structure ListIPMsgChanResp where
  Meta : IPMessageMeta := {}
  Channels : Slice IPMessageChannel := {}
  deriving DecidableEq, Repr

structure ListIPMsgResp where
  Meta : IPMessageMeta := {}
  Messages : Slice IPMessage := {}
  deriving DecidableEq, Repr

/-- Modelled from the spec: the type `Exception` is declared outside
`ipmessaging.go`; the spec describes it as the provider's error payload, a
JSON object decoded into a structure that exposes `code` and `message`. -/
structure Exception where
  Code : Int := 0
  Message : String := ""
  deriving DecidableEq, Repr

/-- The fields of `IPMessageChannel` with their struct tags, in source order;
`DateCreated` and `DateUpdated` both carry the tag `date_created`. -/
def IPMessageChannel.fields : List (Field IPMessageChannel) :=
  [ mkField "sid" (fun c => c.Sid) (fun c x => { c with Sid := x }) storeString,
    mkField "account_sid" (fun c => c.AccountSid) (fun c x => { c with AccountSid := x })
      storeString,
    mkField "service_sid" (fun c => c.ServiceSid) (fun c x => { c with ServiceSid := x })
      storeString,
    mkField "friendly_name" (fun c => c.FriendlyName) (fun c x => { c with FriendlyName := x })
      storeString,
    mkField "attributes" (fun c => c.Attributes) (fun c x => { c with Attributes := x })
      storeString,
    mkField "type" (fun c => c.Type_) (fun c x => { c with Type_ := x }) storeString,
    mkField "date_created" (fun c => c.DateCreated) (fun c x => { c with DateCreated := x })
      storeString,
    mkField "date_created" (fun c => c.DateUpdated) (fun c x => { c with DateUpdated := x })
      storeString,
    mkField "created_by" (fun c => c.CreatedBy) (fun c x => { c with CreatedBy := x })
      storeString,
    mkField "url" (fun c => c.Url) (fun c x => { c with Url := x }) storeString ]

def IPMessageMeta.fields : List (Field IPMessageMeta) :=
  [ mkField "page" (fun m => m.Page) (fun m x => { m with Page := x }) storeInt64,
    mkField "page_size" (fun m => m.PageSize) (fun m x => { m with PageSize := x }) storeInt64,
    mkField "first_page_url" (fun m => m.FirstPageUrl) (fun m x => { m with FirstPageUrl := x })
      storeString,
    mkField "previous_page_url" (fun m => m.PreviousPageUrl)
      (fun m x => { m with PreviousPageUrl := x }) storeString,
    mkField "url" (fun m => m.Url) (fun m x => { m with Url := x }) storeString,
    mkField "next_page_url" (fun m => m.NextPageUrl) (fun m x => { m with NextPageUrl := x })
      storeString,
    mkField "key" (fun m => m.Key) (fun m x => { m with Key := x }) storeString ]

def IPMessage.fields : List (Field IPMessage) :=
  [ mkField "sid" (fun c => c.Sid) (fun c x => { c with Sid := x }) storeString,
    mkField "account_sid" (fun c => c.AccountSid) (fun c x => { c with AccountSid := x })
      storeString,
    mkField "service_sid" (fun c => c.ServiceSid) (fun c x => { c with ServiceSid := x })
      storeString,
    mkField "to" (fun c => c.To) (fun c x => { c with To := x }) storeString,
    mkField "date_created" (fun c => c.DateCreated) (fun c x => { c with DateCreated := x })
      storeString,
    mkField "date_updated" (fun c => c.DateUpdated) (fun c x => { c with DateUpdated := x })
      storeString,
    mkField "was_edited" (fun c => c.WasEdited) (fun c x => { c with WasEdited := x }) storeBool,
    mkField "from" (fun c => c.From) (fun c x => { c with From := x }) storeString,
    mkField "body" (fun c => c.Body) (fun c x => { c with Body := x }) storeString,
    mkField "url" (fun c => c.Url) (fun c x => { c with Url := x }) storeString ]

def IPMessageChannel.store : Store IPMessageChannel :=
  storeStruct "gotwilio.IPMessageChannel" IPMessageChannel.fields

def IPMessageMeta.store : Store IPMessageMeta :=
  storeStruct "gotwilio.IPMessageMeta" IPMessageMeta.fields

def IPMessage.store : Store IPMessage :=
  storeStruct "gotwilio.IPMessage" IPMessage.fields

def ListIPMsgChanResp.fields : List (Field ListIPMsgChanResp) :=
  [ mkField "meta" (fun r => r.Meta) (fun r x => { r with Meta := x }) IPMessageMeta.store,
    mkField "channels" (fun r => r.Channels) (fun r x => { r with Channels := x })
      (storeSlice "[]gotwilio.IPMessageChannel" {} IPMessageChannel.store) ]

def ListIPMsgResp.fields : List (Field ListIPMsgResp) :=
  [ mkField "meta" (fun r => r.Meta) (fun r x => { r with Meta := x }) IPMessageMeta.store,
    mkField "messages" (fun r => r.Messages) (fun r x => { r with Messages := x })
      (storeSlice "[]gotwilio.IPMessage" {} IPMessage.store) ]

def ListIPMsgChanResp.store : Store ListIPMsgChanResp :=
  storeStruct "gotwilio.ListIPMsgChanResp" ListIPMsgChanResp.fields

def ListIPMsgResp.store : Store ListIPMsgResp :=
  storeStruct "gotwilio.ListIPMsgResp" ListIPMsgResp.fields

def Exception.fields : List (Field Exception) :=
  [ mkField "code" (fun x => x.Code) (fun x c => { x with Code := c }) storeInt64,
    mkField "message" (fun x => x.Message) (fun x m => { x with Message := m }) storeString ]

def Exception.store : Store Exception :=
  storeStruct "gotwilio.Exception" Exception.fields

/-! ## Form values, the HTTP primitives, runs -/

/-- Go's `url.Values`, a map from key to the list of its values, as an
association list with one entry per key. -/
structure Values where
  entries : List (String × List String)
  deriving DecidableEq, Repr

/-- The literal `url.Values{}`. -/
def Values.empty : Values := ⟨[]⟩

def setEntry (key value : String) : List (String × List String) → List (String × List String)
  | [] => [(key, [value])]
  | (k, vs) :: rest =>
      if k = key then (key, [value]) :: rest else (k, vs) :: setEntry key value rest

/-- The method `Set`: the key now has exactly this one value. -/
def Values.Set (v : Values) (key value : String) : Values :=
  ⟨setEntry key value v.entries⟩

/-- The map lookup `v[key]`. -/
def Values.lookup (v : Values) (key : String) : Option (List String) :=
  match v.entries.find? fun kv => decide (kv.1 = key) with
  | some kv => some kv.2
  | none => none

/-- An `*http.Response` as far as the client reads it: the status code, and what
`ioutil.ReadAll(res.Body)` yields, the whole body or a read error. -/
structure Response where
  StatusCode : Int
  Body : Except GoError String

/-- The receiver `Twilio` as far as `ipmessaging.go` uses it: the three HTTP
primitives, with the signatures of their call sites. They are parameters of
every operation; each yields a response and an error, either of which may be
nil. -/
structure Twilio where
  post : Values → String → Option Response × Option GoError
  get : String → Option Response × Option GoError
  delete : String → Option Response × Option GoError

/-- What a run does that can be observed from outside. -/
inductive Event where
  | post (formValues : Values) (url : String) : Event
  | get (url : String) : Event
  | delete (url : String) : Event
  | readAll : Event
  | unmarshal (data : String) : Event
  deriving DecidableEq, Repr

def Event.isTransportCall : Event → Bool
  | Event.post _ _ => true
  | Event.get _ => true
  | Event.delete _ => true
  | _ => false

/-- A Go call returns its results or panics. -/
inductive Outcome (α : Type) where
  | returned (results : α) : Outcome α
  | panicked : Outcome α
  deriving DecidableEq, Repr

/-- A run: the events in order, and how the call ended. -/
structure Run (α : Type) where
  trace : List Event
  outcome : Outcome α
  deriving DecidableEq, Repr

/-! ## The operations -/

/-- The transport call `sendIPMsgRequest` makes for `method`, with the values of
`res` and `err` after it; for a method other than `POST` and `GET` no call is
made and both stay nil. -/
def dispatch (twilio : Twilio) (formValues : Values) (twilioUrl method : String) :
    List Event × Option Response × Option GoError :=
  if method = "POST" then ([Event.post formValues twilioUrl], twilio.post formValues twilioUrl)
  else if method = "GET" then ([Event.get twilioUrl], twilio.get twilioUrl)
  else ([], none, none)

/-- The function `sendIPMsgRequest`. The out-parameter `respStruct` is a variable
of some type `σ` together with the way JSON is stored into it; its contents
after the call are the first component of the results, followed by the
results `exception` and `err`. A nil `res` with a nil `err` panics at
`res.Body`. -/
def sendIPMsgRequest {σ : Type} (twilio : Twilio) (formValues : Values)
    (twilioUrl method : String) (store : Store σ) (respStruct : σ) :
    Run (σ × Option Exception × Option GoError) :=
  let call := dispatch twilio formValues twilioUrl method
  match call.2.2 with
  | some err => ⟨call.1, Outcome.returned (respStruct, none, some err)⟩
  | none =>
      match call.2.1 with
      | none => ⟨call.1, Outcome.panicked⟩
      | some res =>
          match res.Body with
          | Except.error err =>
              ⟨call.1 ++ [Event.readAll], Outcome.returned (respStruct, none, some err)⟩
          | Except.ok responseBody =>
              if res.StatusCode < 200 ∨ res.StatusCode ≥ 300 then
                let r := Unmarshal Exception.store responseBody {}
                ⟨call.1 ++ [Event.readAll, Event.unmarshal responseBody],
                  Outcome.returned (respStruct, some r.1, r.2)⟩
              else
                let r := Unmarshal store responseBody respStruct
                ⟨call.1 ++ [Event.readAll, Event.unmarshal responseBody],
                  Outcome.returned (r.1, none, r.2)⟩

/-- What a public operation keeps of `sendIPMsgRequest`: a projection of the
decoded variable, and `err`; the exception is assigned to the blank
identifier. -/
def keep {σ α : Type} (f : σ → α) (r : Run (σ × Option Exception × Option GoError)) :
    Run (α × Option GoError) :=
  match r.outcome with
  | Outcome.returned (resp, _, err) => ⟨r.trace, Outcome.returned (f resp, err)⟩
  | Outcome.panicked => ⟨r.trace, Outcome.panicked⟩

def ListIPMessageChannels (twilio : Twilio) (serviceSid : String) :
    Run (List IPMessageChannel × Option GoError) :=
  let twilioUrl := IPMsgURL ++ "/Services/" ++ serviceSid ++ "/Channels"
  let resp : ListIPMsgChanResp := {}
  keep (fun resp => resp.Channels.elems)
    (sendIPMsgRequest twilio ⟨[]⟩ twilioUrl "GET" ListIPMsgChanResp.store resp)

def CreateIPMessageChannel (twilio : Twilio)
    (serviceSid channelType friendlyName uniqueName : String) : Run (String × Option GoError) :=
  let twilioUrl := IPMsgURL ++ "/Services/" ++ serviceSid ++ "/Channels"
  let resp : IPMessageChannel := {}
  let formValues := Values.empty
  let formValues := if friendlyName ≠ "" then formValues.Set "FriendlyName" friendlyName
    else formValues
  let formValues := if uniqueName ≠ "" then formValues.Set "UniqueName" uniqueName
    else formValues
  let formValues := formValues.Set "Type" channelType
  keep (fun resp => resp.Sid)
    (sendIPMsgRequest twilio formValues twilioUrl "POST" IPMessageChannel.store resp)

def DeleteIPMessageChannel (twilio : Twilio) (serviceSid channelSid : String) :
    Run (Option GoError) :=
  let twilioUrl := IPMsgURL ++ "/Services/" ++ serviceSid ++ "/Channels/" ++ channelSid
  match twilio.delete twilioUrl with
  | (_, some err) => ⟨[Event.delete twilioUrl], Outcome.returned (some err)⟩
  | (none, none) => ⟨[Event.delete twilioUrl], Outcome.panicked⟩
  | (some res, none) =>
      if res.StatusCode ≠ 204 then
        ⟨[Event.delete twilioUrl],
          Outcome.returned (some (GoError.errorsNew "failed deleting twilio channel"))⟩
      else ⟨[Event.delete twilioUrl], Outcome.returned none⟩

/-- The function `SendIPMessage`; its parameter `from` is spelled `from_`. -/
def SendIPMessage (twilio : Twilio) (serviceSid channelSid memberSid body from_ : String) :
    Run (Option GoError) :=
  let _ := memberSid
  let twilioUrl :=
    IPMsgURL ++ "/Services/" ++ serviceSid ++ "/Channels/" ++ channelSid ++ "/Messages"
  let resp : IPMessage := {}
  let formValues := Values.empty
  let formValues := formValues.Set "Body" body
  let formValues := formValues.Set "From" from_
  let r := sendIPMsgRequest twilio formValues twilioUrl "POST" IPMessage.store resp
  match r.outcome with
  | Outcome.returned (_, _, err) => ⟨r.trace, Outcome.returned err⟩
  | Outcome.panicked => ⟨r.trace, Outcome.panicked⟩

def ListIPMessages (twilio : Twilio) (serviceSid channelSid : String) :
    Run (List IPMessage × Option GoError) :=
  let twilioUrl :=
    IPMsgURL ++ "/Services/" ++ serviceSid ++ "/Channels/" ++ channelSid ++ "/Messages"
  let resp : ListIPMsgResp := {}
  keep (fun resp => resp.Messages.elems)
    (sendIPMsgRequest twilio ⟨[]⟩ twilioUrl "GET" ListIPMsgResp.store resp)

/-! ## The JSON shape each Go type expects -/

/-- What a Go string accepts without error: a JSON string or `null`. -/
def okString : JSON → Bool
  | JSON.str _ => true
  | JSON.null => true
  | _ => false

/-- What a Go bool accepts without error: `true`, `false` or `null`. -/
def okBool : JSON → Bool
  | JSON.bool _ => true
  | JSON.null => true
  | _ => false

/-- What a Go int64 accepts without error: an integer literal in range, or
`null`. -/
def okInt64 : JSON → Bool
  | JSON.num lit => (parseInt64 lit).isSome
  | JSON.null => true
  | _ => false

/-- Whether a JSON value has the kind the Go type expects at all. -/
def isObjectOrNull : JSON → Bool
  | JSON.obj _ => true
  | JSON.null => true
  | _ => false

def isArrayOrNull : JSON → Bool
  | JSON.arr _ => true
  | JSON.null => true
  | _ => false

/-- A member of an object is well typed when its key addresses no field, or
the field it addresses accepts its value. -/
def okMember {σ : Type} (fs : List (Field σ)) (accepts : String → JSON → Bool)
    (kv : String × JSON) : Bool :=
  match findField (typeFields fs) kv.1 with
  | none => true
  | some f => accepts f.name kv.2

/-- What a struct accepts without error: `null`, or an object all of whose
members are well typed. -/
def okStruct {σ : Type} (fs : List (Field σ)) (accepts : String → JSON → Bool) : JSON → Bool
  | JSON.obj members => members.all (okMember fs accepts)
  | JSON.null => true
  | _ => false

/-- What a slice accepts without error: `null`, or an array whose elements
are all accepted. -/
def okSlice (ok : JSON → Bool) : JSON → Bool
  | JSON.arr elems => elems.all ok
  | JSON.null => true
  | _ => false

def IPMessageChannel.accepts (_ : String) : JSON → Bool := okString

def IPMessageMeta.accepts (name : String) : JSON → Bool :=
  if name = "page" ∨ name = "page_size" then okInt64 else okString

def IPMessage.accepts (name : String) : JSON → Bool :=
  if name = "was_edited" then okBool else okString

def ListIPMsgChanResp.accepts (name : String) : JSON → Bool :=
  if name = "meta" then okStruct IPMessageMeta.fields IPMessageMeta.accepts
  else okSlice (okStruct IPMessageChannel.fields IPMessageChannel.accepts)

def ListIPMsgResp.accepts (name : String) : JSON → Bool :=
  if name = "meta" then okStruct IPMessageMeta.fields IPMessageMeta.accepts
  else okSlice (okStruct IPMessage.fields IPMessage.accepts)

/-- The JSON kind each field of the two envelopes expects: an object for
`meta`, an array for the sequence. -/
def envelopeKind (name : String) : JSON → Bool :=
  if name = "meta" then isObjectOrNull else isArrayOrNull

/-- A body matches the expected shape when it is valid JSON and its value is
accepted. -/
def matchesShape (ok : JSON → Bool) (body : String) : Bool :=
  match parseJSON body with
  | none => false
  | some j => ok j

/-- The members of an object whose value has the kind their field expects,
together with the members that address no field. -/
def wellKinded {σ : Type} (fs : List (Field σ)) (kind : String → JSON → Bool)
    (members : List (String × JSON)) : List (String × JSON) :=
  members.filter (okMember fs kind)

/-- The shapes the three decoded success types expect. -/
def IPMessageChannel.shape : JSON → Bool :=
  okStruct IPMessageChannel.fields IPMessageChannel.accepts

def ListIPMsgChanResp.shape : JSON → Bool :=
  okStruct ListIPMsgChanResp.fields ListIPMsgChanResp.accepts

def ListIPMsgResp.shape : JSON → Bool :=
  okStruct ListIPMsgResp.fields ListIPMsgResp.accepts

/-! ## Transports and bodies used as concrete inputs -/

/-- A transport that answers every call with the same status and body. -/
def answering (status : Int) (body : String) : Twilio :=
  { post := fun _ _ => (some ⟨status, Except.ok body⟩, none),
    get := fun _ => (some ⟨status, Except.ok body⟩, none),
    delete := fun _ => (some ⟨status, Except.ok body⟩, none) }

/-- A transport with no connection: every call fails with an error that
names the verb and the URL. -/
def refusing : Twilio :=
  { post := fun _ url => (none, some (GoError.transport ("Post " ++ url ++ ": connection refused"))),
    get := fun url => (none, some (GoError.transport ("Get " ++ url ++ ": connection refused"))),
    delete := fun url =>
      (none, some (GoError.transport ("Delete " ++ url ++ ": connection refused"))) }

/-- A body from which the decoder stores nothing into a struct: a text that is
not valid JSON, or a top-level value that is neither an object nor `null`. -/
def notAnObject (body : String) : Bool :=
  match parseJSON body with
  | none => true
  | some (JSON.obj _) => false
  | some JSON.null => false
  | some _ => true

/-! ## The nesting limit of the scanner -/

/-- With `maxNestingDepth` containers open, one more opening bracket is an
error. -/
theorem stepBeginValue_maxDepth (orClose : Bool) (stack : List Frame)
    (h : stack.length = maxNestingDepth) :
    stepBeginValue orClose stack '[' = none ∧ stepBeginValue orClose stack '{' = none := by
  constructor <;> simp [stepBeginValue, pushFrame, isSpace, h]

/-! ## Decoding into a slice that already has elements -/

/-- A body with the `channels` member twice: the second array is decoded into
the element the first one left, so the fields it does not name are kept. -/
theorem channels_twice_decodes_into_existing :
    (ListIPMessageChannels
        (answering 200
          "\x7b\"channels\":[\x7b\"sid\":\"A\",\"url\":\"u\"\x7d],\"channels\":[\x7b\"friendly_name\":\"B\"\x7d]\x7d")
        "SVC1").outcome
      = Outcome.returned ([{ Sid := "A", FriendlyName := "B", Url := "u" }], none) := by
  decide

/-! ## The shared procedure, case by case -/

theorem keep_trace {σ α : Type} (f : σ → α) (r : Run (σ × Option Exception × Option GoError)) :
    (keep f r).trace = r.trace := by
  unfold keep
  cases h : r.outcome <;> rfl

theorem dispatch_GET (twilio : Twilio) (fv : Values) (url : String) :
    dispatch twilio fv url "GET" = ([Event.get url], twilio.get url) := by
  simp [dispatch]

theorem dispatch_POST (twilio : Twilio) (fv : Values) (url : String) :
    dispatch twilio fv url "POST" = ([Event.post fv url], twilio.post fv url) := by
  simp [dispatch]

theorem send_err {σ : Type} (twilio : Twilio) (fv : Values) (url method : String)
    (st : Store σ) (v : σ) (evs : List Event) (res : Option Response) (e : GoError)
    (h : dispatch twilio fv url method = (evs, res, some e)) :
    sendIPMsgRequest twilio fv url method st v = ⟨evs, Outcome.returned (v, none, some e)⟩ := by
  simp [sendIPMsgRequest, h]

theorem send_nil {σ : Type} (twilio : Twilio) (fv : Values) (url method : String)
    (st : Store σ) (v : σ) (evs : List Event)
    (h : dispatch twilio fv url method = (evs, none, none)) :
    sendIPMsgRequest twilio fv url method st v = ⟨evs, Outcome.panicked⟩ := by
  simp [sendIPMsgRequest, h]

theorem send_readErr {σ : Type} (twilio : Twilio) (fv : Values) (url method : String)
    (st : Store σ) (v : σ) (evs : List Event) (res : Response) (e : GoError)
    (h : dispatch twilio fv url method = (evs, some res, none))
    (hb : res.Body = Except.error e) :
    sendIPMsgRequest twilio fv url method st v
      = ⟨evs ++ [Event.readAll], Outcome.returned (v, none, some e)⟩ := by
  simp [sendIPMsgRequest, h, hb]

theorem send_2xx {σ : Type} (twilio : Twilio) (fv : Values) (url method : String)
    (st : Store σ) (v : σ) (evs : List Event) (res : Response) (body : String)
    (h : dispatch twilio fv url method = (evs, some res, none))
    (hb : res.Body = Except.ok body)
    (h1 : 200 ≤ res.StatusCode) (h2 : res.StatusCode < 300) :
    sendIPMsgRequest twilio fv url method st v
      = ⟨evs ++ [Event.readAll, Event.unmarshal body],
          Outcome.returned ((Unmarshal st body v).1, none, (Unmarshal st body v).2)⟩ := by
  have hc : ¬ (res.StatusCode < 200 ∨ res.StatusCode ≥ 300) := by omega
  simp [sendIPMsgRequest, h, hb, hc]

theorem send_non2xx {σ : Type} (twilio : Twilio) (fv : Values) (url method : String)
    (st : Store σ) (v : σ) (evs : List Event) (res : Response) (body : String)
    (h : dispatch twilio fv url method = (evs, some res, none))
    (hb : res.Body = Except.ok body)
    (hs : res.StatusCode < 200 ∨ 300 ≤ res.StatusCode) :
    sendIPMsgRequest twilio fv url method st v
      = ⟨evs ++ [Event.readAll, Event.unmarshal body],
          Outcome.returned (v, some (Unmarshal Exception.store body {}).1,
            (Unmarshal Exception.store body {}).2)⟩ := by
  have hc : res.StatusCode < 200 ∨ res.StatusCode ≥ 300 := by omega
  simp [sendIPMsgRequest, h, hb, hc]

/-- Whatever the transport answers, the trace starts with the events of the
dispatch and goes on with no further transport call; a run that panics or
returns the transport's error has no other event. -/
theorem send_trace {σ : Type} (twilio : Twilio) (fv : Values) (url method : String)
    (st : Store σ) (v : σ) :
    ∃ rest, (sendIPMsgRequest twilio fv url method st v).trace
        = (dispatch twilio fv url method).1 ++ rest ∧
      ∀ e ∈ rest, e.isTransportCall = false := by
  rcases hd : dispatch twilio fv url method with ⟨evs, res, err⟩
  cases err with
  | some e => exact ⟨[], by simp [send_err twilio fv url method st v evs res e hd]⟩
  | none =>
    cases res with
    | none => exact ⟨[], by simp [send_nil twilio fv url method st v evs hd]⟩
    | some res =>
      cases hb : res.Body with
      | error e =>
        exact ⟨[Event.readAll], by
          simp [send_readErr twilio fv url method st v evs res e hd hb, Event.isTransportCall]⟩
      | ok body =>
        by_cases hs : res.StatusCode < 200 ∨ 300 ≤ res.StatusCode
        · exact ⟨[Event.readAll, Event.unmarshal body], by
            simp [send_non2xx twilio fv url method st v evs res body hd hb hs,
              Event.isTransportCall]⟩
        · exact ⟨[Event.readAll, Event.unmarshal body], by
            simp [send_2xx twilio fv url method st v evs res body hd hb (by omega) (by omega),
              Event.isTransportCall]⟩

/-! ## Fields found by key -/

theorem findField_mem {σ : Type} (fs : List (Field σ)) (key : String) (f : Field σ)
    (h : findField fs key = some f) : f ∈ fs := by
  unfold findField at h
  cases h1 : fs.find? (fun f => decide (f.name = key)) with
  | some g =>
    rw [h1] at h
    cases h
    exact List.mem_of_find?_eq_some h1
  | none =>
    rw [h1] at h
    exact List.mem_of_find?_eq_some h

/-! ## The decoder reports an error exactly off the expected shape -/

theorem saveError_eq_none (a b : Option GoError) :
    saveError a b = none ↔ a = none ∧ b = none := by
  cases a <;> simp [saveError]

theorem storeString_err (j : JSON) (v : String) :
    (storeString j v).2 = none ↔ okString j = true := by
  cases j <;> simp [storeString, okString]

theorem storeBool_err (j : JSON) (v : Bool) :
    (storeBool j v).2 = none ↔ okBool j = true := by
  cases j <;> simp [storeBool, okBool]

theorem storeInt64_err (j : JSON) (v : Int) :
    (storeInt64 j v).2 = none ↔ okInt64 j = true := by
  cases j with
  | num lit =>
    cases h : parseInt64 lit <;> simp [storeInt64, okInt64, h]
  | null => simp [storeInt64, okInt64]
  | bool b => simp [storeInt64, okInt64]
  | str s => simp [storeInt64, okInt64]
  | arr xs => simp [storeInt64, okInt64]
  | obj ms => simp [storeInt64, okInt64]

theorem object_err {σ : Type} (fs : List (Field σ)) (accepts : String → JSON → Bool)
    (h : ∀ f ∈ fs, ∀ j v, (f.store j v).2 = none ↔ accepts f.name j = true) :
    ∀ (members : List (String × JSON)) (v : σ) (saved : Option GoError),
      (object fs members v saved).2 = none ↔
        saved = none ∧
          members.all (fun kv =>
            match findField fs kv.1 with
            | none => true
            | some f => accepts f.name kv.2) = true := by
  intro members
  induction members with
  | nil => intro v saved; simp [object]
  | cons m rest ih =>
    intro v saved
    obtain ⟨key, j⟩ := m
    unfold object
    cases hf : findField fs key with
    | none =>
      simp only [List.all_cons, hf, Bool.true_and]
      exact ih v saved
    | some f =>
      have hmem : f ∈ fs := findField_mem fs key f hf
      simp only [List.all_cons, hf, Bool.and_eq_true]
      rw [ih, saveError_eq_none, h f hmem j v]
      tauto

theorem storeStruct_err {σ : Type} (goType : String) (fs : List (Field σ))
    (accepts : String → JSON → Bool)
    (h : ∀ f ∈ typeFields fs, ∀ j v, (f.store j v).2 = none ↔ accepts f.name j = true)
    (j : JSON) (v : σ) :
    (storeStruct goType fs j v).2 = none ↔ okStruct fs accepts j = true := by
  cases j with
  | obj members =>
    unfold storeStruct okStruct
    rw [object_err (typeFields fs) accepts h members v none]
    simp [okMember]
  | _ => simp [storeStruct, okStruct]

theorem array_err {α : Type} (zero : α) (elem : Store α) (ok : JSON → Bool)
    (h : ∀ j v, (elem j v).2 = none ↔ ok j = true) :
    ∀ (js : List JSON) (slots : List α), (array zero elem js slots).2 = none ↔ js.all ok = true := by
  intro js
  induction js with
  | nil => intro slots; simp [array]
  | cons j rest ih =>
    intro slots
    unfold array
    simp only [List.all_cons, Bool.and_eq_true]
    rw [saveError_eq_none, h, ih]

theorem storeSlice_err {α : Type} (goType : String) (zero : α) (elem : Store α)
    (ok : JSON → Bool) (h : ∀ j v, (elem j v).2 = none ↔ ok j = true)
    (j : JSON) (v : Slice α) :
    (storeSlice goType zero elem j v).2 = none ↔ okSlice ok j = true := by
  cases j with
  | arr elems =>
    cases elems with
    | nil => simp [storeSlice, okSlice]
    | cons a rest =>
      unfold storeSlice okSlice
      exact array_err zero elem ok h (a :: rest) _
  | _ => simp [storeSlice, okSlice]

theorem IPMessageChannel_field_err :
    ∀ f ∈ typeFields IPMessageChannel.fields, ∀ (j : JSON) (v : IPMessageChannel),
      (f.store j v).2 = none ↔ IPMessageChannel.accepts f.name j = true := by
  intro f hf j v
  have hfs : typeFields IPMessageChannel.fields
      = [IPMessageChannel.fields.get ⟨0, by decide⟩, IPMessageChannel.fields.get ⟨1, by decide⟩,
          IPMessageChannel.fields.get ⟨2, by decide⟩, IPMessageChannel.fields.get ⟨3, by decide⟩,
          IPMessageChannel.fields.get ⟨4, by decide⟩, IPMessageChannel.fields.get ⟨5, by decide⟩,
          IPMessageChannel.fields.get ⟨8, by decide⟩, IPMessageChannel.fields.get ⟨9, by decide⟩] := by
    rfl
  rw [hfs] at hf
  simp only [List.mem_cons, List.mem_singleton, List.not_mem_nil, or_false] at hf
  rcases hf with h | h | h | h | h | h | h | h <;> subst h <;>
    exact storeString_err j _

theorem IPMessageMeta_field_err :
    ∀ f ∈ typeFields IPMessageMeta.fields, ∀ (j : JSON) (v : IPMessageMeta),
      (f.store j v).2 = none ↔ IPMessageMeta.accepts f.name j = true := by
  intro f hf j v
  have hfs : typeFields IPMessageMeta.fields = IPMessageMeta.fields := by rfl
  rw [hfs] at hf
  simp only [IPMessageMeta.fields, List.mem_cons, List.mem_singleton, List.not_mem_nil,
    or_false] at hf
  rcases hf with h | h | h | h | h | h | h <;> subst h
  · exact storeInt64_err j _
  · exact storeInt64_err j _
  · exact storeString_err j _
  · exact storeString_err j _
  · exact storeString_err j _
  · exact storeString_err j _
  · exact storeString_err j _

theorem IPMessage_field_err :
    ∀ f ∈ typeFields IPMessage.fields, ∀ (j : JSON) (v : IPMessage),
      (f.store j v).2 = none ↔ IPMessage.accepts f.name j = true := by
  intro f hf j v
  have hfs : typeFields IPMessage.fields = IPMessage.fields := by rfl
  rw [hfs] at hf
  simp only [IPMessage.fields, List.mem_cons, List.mem_singleton, List.not_mem_nil,
    or_false] at hf
  rcases hf with h | h | h | h | h | h | h | h | h | h <;> subst h
  · exact storeString_err j _
  · exact storeString_err j _
  · exact storeString_err j _
  · exact storeString_err j _
  · exact storeString_err j _
  · exact storeString_err j _
  · exact storeBool_err j _
  · exact storeString_err j _
  · exact storeString_err j _
  · exact storeString_err j _

theorem IPMessageChannel_store_err (j : JSON) (v : IPMessageChannel) :
    (IPMessageChannel.store j v).2 = none
      ↔ okStruct IPMessageChannel.fields IPMessageChannel.accepts j = true :=
  storeStruct_err _ _ _ IPMessageChannel_field_err j v

theorem IPMessageMeta_store_err (j : JSON) (v : IPMessageMeta) :
    (IPMessageMeta.store j v).2 = none
      ↔ okStruct IPMessageMeta.fields IPMessageMeta.accepts j = true :=
  storeStruct_err _ _ _ IPMessageMeta_field_err j v

theorem IPMessage_store_err (j : JSON) (v : IPMessage) :
    (IPMessage.store j v).2 = none ↔ okStruct IPMessage.fields IPMessage.accepts j = true :=
  storeStruct_err _ _ _ IPMessage_field_err j v

theorem ListIPMsgChanResp_store_err (j : JSON) (v : ListIPMsgChanResp) :
    (ListIPMsgChanResp.store j v).2 = none
      ↔ okStruct ListIPMsgChanResp.fields ListIPMsgChanResp.accepts j = true := by
  refine storeStruct_err _ _ _ ?_ j v
  intro f hf j v
  have hfs : typeFields ListIPMsgChanResp.fields = ListIPMsgChanResp.fields := by rfl
  rw [hfs] at hf
  simp only [ListIPMsgChanResp.fields, List.mem_cons, List.mem_singleton, List.not_mem_nil,
    or_false] at hf
  rcases hf with h | h <;> subst h
  · exact IPMessageMeta_store_err j _
  · exact storeSlice_err _ _ _ _ IPMessageChannel_store_err j _

theorem ListIPMsgResp_store_err (j : JSON) (v : ListIPMsgResp) :
    (ListIPMsgResp.store j v).2 = none
      ↔ okStruct ListIPMsgResp.fields ListIPMsgResp.accepts j = true := by
  refine storeStruct_err _ _ _ ?_ j v
  intro f hf j v
  have hfs : typeFields ListIPMsgResp.fields = ListIPMsgResp.fields := by rfl
  rw [hfs] at hf
  simp only [ListIPMsgResp.fields, List.mem_cons, List.mem_singleton, List.not_mem_nil,
    or_false] at hf
  rcases hf with h | h <;> subst h
  · exact IPMessageMeta_store_err j _
  · exact storeSlice_err _ _ _ _ IPMessage_store_err j _

theorem Unmarshal_err {σ : Type} (st : Store σ) (ok : JSON → Bool)
    (h : ∀ j v, (st j v).2 = none ↔ ok j = true) (body : String) (v : σ) :
    (Unmarshal st body v).2 = none ↔ matchesShape ok body = true := by
  unfold Unmarshal matchesShape
  cases parseJSON body with
  | none => simp
  | some j => exact h j v

/-! ## Members of the wrong kind are skipped -/

theorem object_fst_saved {σ : Type} (fs : List (Field σ)) :
    ∀ (members : List (String × JSON)) (v : σ) (s1 s2 : Option GoError),
      (object fs members v s1).1 = (object fs members v s2).1 := by
  intro members
  induction members with
  | nil => intro v s1 s2; rfl
  | cons m rest ih =>
    intro v s1 s2
    obtain ⟨key, j⟩ := m
    unfold object
    cases findField fs key with
    | none => exact ih v s1 s2
    | some f => exact ih _ _ _

theorem object_skip {σ : Type} (fs : List (Field σ)) (kind : String → JSON → Bool)
    (h : ∀ f ∈ fs, ∀ j v, kind f.name j = false → (f.store j v).1 = v) :
    ∀ (members : List (String × JSON)) (v : σ) (saved : Option GoError),
      (object fs members v saved).1
        = (object fs
            (members.filter fun kv =>
              match findField fs kv.1 with
              | none => true
              | some f => kind f.name kv.2) v none).1 := by
  intro members
  induction members with
  | nil => intro v saved; rfl
  | cons m rest ih =>
    intro v saved
    obtain ⟨key, j⟩ := m
    cases hf : findField fs key with
    | none =>
      rw [List.filter_cons]
      simp only [hf, if_true]
      unfold object
      simp only [hf]
      exact ih v saved
    | some f =>
      have hmem : f ∈ fs := findField_mem fs key f hf
      rw [List.filter_cons]
      simp only [hf]
      cases hk : kind f.name j with
      | true =>
        simp only [if_true]
        unfold object
        simp only [hf]
        rw [ih, object_fst_saved fs _ _ (saveError none (f.store j v).2) none]
      | false =>
        simp only [Bool.false_eq_true, if_false]
        conv => lhs; unfold object
        simp only [hf]
        rw [h f hmem j v hk]
        exact ih v _

theorem storeStruct_skip {σ : Type} (goType : String) (fs : List (Field σ))
    (kind : String → JSON → Bool)
    (h : ∀ f ∈ typeFields fs, ∀ j v, kind f.name j = false → (f.store j v).1 = v)
    (members : List (String × JSON)) (v : σ) :
    (storeStruct goType fs (JSON.obj members) v).1
      = (storeStruct goType fs (JSON.obj (wellKinded fs kind members)) v).1 := by
  unfold storeStruct wellKinded
  rw [object_skip (typeFields fs) kind h members v none]
  rfl

theorem storeString_skip (j : JSON) (v : String) (h : okString j = false) :
    (storeString j v).1 = v := by
  cases j <;> simp_all [storeString, okString]

theorem IPMessageChannel_field_skip :
    ∀ f ∈ typeFields IPMessageChannel.fields, ∀ (j : JSON) (v : IPMessageChannel),
      IPMessageChannel.accepts f.name j = false → (f.store j v).1 = v := by
  intro f hf j v hk
  have hfs : typeFields IPMessageChannel.fields
      = [IPMessageChannel.fields.get ⟨0, by decide⟩, IPMessageChannel.fields.get ⟨1, by decide⟩,
          IPMessageChannel.fields.get ⟨2, by decide⟩, IPMessageChannel.fields.get ⟨3, by decide⟩,
          IPMessageChannel.fields.get ⟨4, by decide⟩, IPMessageChannel.fields.get ⟨5, by decide⟩,
          IPMessageChannel.fields.get ⟨8, by decide⟩, IPMessageChannel.fields.get ⟨9, by decide⟩] := by
    rfl
  rw [hfs] at hf
  simp only [List.mem_cons, List.mem_singleton, List.not_mem_nil, or_false] at hf
  have hs : ∀ cur : String, (storeString j cur).1 = cur := fun cur => storeString_skip j cur hk
  rcases hf with h | h | h | h | h | h | h | h <;> subst h
  · show ({ v with Sid := (storeString j v.Sid).1 } : IPMessageChannel) = v
    rw [hs]
  · show ({ v with AccountSid := (storeString j v.AccountSid).1 } : IPMessageChannel) = v
    rw [hs]
  · show ({ v with ServiceSid := (storeString j v.ServiceSid).1 } : IPMessageChannel) = v
    rw [hs]
  · show ({ v with FriendlyName := (storeString j v.FriendlyName).1 } : IPMessageChannel) = v
    rw [hs]
  · show ({ v with Attributes := (storeString j v.Attributes).1 } : IPMessageChannel) = v
    rw [hs]
  · show ({ v with Type_ := (storeString j v.Type_).1 } : IPMessageChannel) = v
    rw [hs]
  · show ({ v with CreatedBy := (storeString j v.CreatedBy).1 } : IPMessageChannel) = v
    rw [hs]
  · show ({ v with Url := (storeString j v.Url).1 } : IPMessageChannel) = v
    rw [hs]

theorem storeStruct_wrong_kind {σ : Type} (goType : String) (fs : List (Field σ)) (j : JSON)
    (v : σ) (h : isObjectOrNull j = false) : (storeStruct goType fs j v).1 = v := by
  cases j <;> simp_all [storeStruct, isObjectOrNull]

theorem storeSlice_wrong_kind {α : Type} (goType : String) (zero : α) (elem : Store α)
    (j : JSON) (v : Slice α) (h : isArrayOrNull j = false) :
    (storeSlice goType zero elem j v).1 = v := by
  cases j <;> simp_all [storeSlice, isArrayOrNull]

theorem ListIPMsgChanResp_field_skip :
    ∀ f ∈ typeFields ListIPMsgChanResp.fields, ∀ (j : JSON) (v : ListIPMsgChanResp),
      envelopeKind f.name j = false → (f.store j v).1 = v := by
  intro f hf j v hk
  have hfs : typeFields ListIPMsgChanResp.fields = ListIPMsgChanResp.fields := by rfl
  rw [hfs] at hf
  simp only [ListIPMsgChanResp.fields, List.mem_cons, List.mem_singleton, List.not_mem_nil,
    or_false] at hf
  rcases hf with h | h <;> subst h
  · have hk2 : isObjectOrNull j = false := by simpa [envelopeKind, mkField] using hk
    simp [mkField, IPMessageMeta.store, storeStruct_wrong_kind _ _ j _ hk2]
  · have hk2 : isArrayOrNull j = false := by simpa [envelopeKind, mkField] using hk
    simp [mkField, storeSlice_wrong_kind _ _ _ j _ hk2]

theorem ListIPMsgResp_field_skip :
    ∀ f ∈ typeFields ListIPMsgResp.fields, ∀ (j : JSON) (v : ListIPMsgResp),
      envelopeKind f.name j = false → (f.store j v).1 = v := by
  intro f hf j v hk
  have hfs : typeFields ListIPMsgResp.fields = ListIPMsgResp.fields := by rfl
  rw [hfs] at hf
  simp only [ListIPMsgResp.fields, List.mem_cons, List.mem_singleton, List.not_mem_nil,
    or_false] at hf
  rcases hf with h | h <;> subst h
  · have hk2 : isObjectOrNull j = false := by simpa [envelopeKind, mkField] using hk
    simp [mkField, IPMessageMeta.store, storeStruct_wrong_kind _ _ j _ hk2]
  · have hk2 : isArrayOrNull j = false := by simpa [envelopeKind, mkField] using hk
    simp [mkField, storeSlice_wrong_kind _ _ _ j _ hk2]

/-! ## The forms of the two posts, written out -/

theorem CreateIPMessageChannel_eq (twilio : Twilio)
    (serviceSid channelType friendlyName uniqueName : String) :
    CreateIPMessageChannel twilio serviceSid channelType friendlyName uniqueName
      = keep (fun resp => resp.Sid)
          (sendIPMsgRequest twilio
            ⟨(if friendlyName = "" then [] else [("FriendlyName", [friendlyName])])
              ++ (if uniqueName = "" then [] else [("UniqueName", [uniqueName])])
              ++ [("Type", [channelType])]⟩
            (IPMsgURL ++ "/Services/" ++ serviceSid ++ "/Channels") "POST"
            IPMessageChannel.store {}) := by
  unfold CreateIPMessageChannel
  by_cases hf : friendlyName = "" <;> by_cases hu : uniqueName = "" <;>
    simp [hf, hu, Values.empty, Values.Set, setEntry]

theorem SendIPMessage_form_eq (body from_ : String) :
    (Values.empty.Set "Body" body).Set "From" from_
      = ⟨[("Body", [body]), ("From", [from_])]⟩ := by
  simp [Values.empty, Values.Set, setEntry]

theorem keep_send_2xx {σ α : Type} (f : σ → α) (twilio : Twilio) (fv : Values)
    (url method : String) (st : Store σ) (v : σ) (evs : List Event) (res : Response)
    (body : String) (h : dispatch twilio fv url method = (evs, some res, none))
    (hb : res.Body = Except.ok body) (h1 : 200 ≤ res.StatusCode) (h2 : res.StatusCode < 300) :
    (keep f (sendIPMsgRequest twilio fv url method st v)).outcome
      = Outcome.returned (f (Unmarshal st body v).1, (Unmarshal st body v).2) := by
  rw [send_2xx twilio fv url method st v evs res body h hb h1 h2]
  rfl

/-! ## Delete -/

/-- C1: when the transport's delete call yields a response and no error,
`DeleteIPMessageChannel` returns a nil error exactly when the status code is
204; with any other status, 200 and the other 2xx codes included, it returns
the error "failed deleting twilio channel". -/
theorem DeleteIPMessageChannel_nil_iff_204 (twilio : Twilio) (serviceSid channelSid : String)
    (res : Response)
    (h : twilio.delete (IPMsgURL ++ "/Services/" ++ serviceSid ++ "/Channels/" ++ channelSid)
      = (some res, none)) :
    ((DeleteIPMessageChannel twilio serviceSid channelSid).outcome = Outcome.returned none
        ↔ res.StatusCode = 204) ∧
      (res.StatusCode ≠ 204 →
        (DeleteIPMessageChannel twilio serviceSid channelSid).outcome
          = Outcome.returned (some (GoError.errorsNew "failed deleting twilio channel"))) := by
  by_cases hs : res.StatusCode = 204
  · simp [DeleteIPMessageChannel, h, hs]
  · simp [DeleteIPMessageChannel, h, hs]

/-- C1 at status 204, where the delete succeeds, and at status 200 with an
empty body, where it is reported as failed. -/
theorem DeleteIPMessageChannel_nil_iff_204_witness :
    (DeleteIPMessageChannel (answering 204 "") "SVC1" "CH1").outcome = Outcome.returned none ∧
      (DeleteIPMessageChannel (answering 200 "") "SVC1" "CH1").outcome
        = Outcome.returned (some (GoError.errorsNew "failed deleting twilio channel")) :=
  ⟨(DeleteIPMessageChannel_nil_iff_204 (answering 204 "") "SVC1" "CH1" ⟨204, Except.ok ""⟩
      rfl).1.mpr rfl,
    (DeleteIPMessageChannel_nil_iff_204 (answering 200 "") "SVC1" "CH1" ⟨200, Except.ok ""⟩
      rfl).2 (by decide)⟩

/-! ## Create and send: the form -/

/-- C3: the form `CreateIPMessageChannel` posts has `Type` with the value
`channelType`, has `FriendlyName` (with its value) exactly when `friendlyName`
is non-empty, has `UniqueName` (with its value) exactly when `uniqueName` is
non-empty, and has no other key; with both names empty it is exactly
`Type=channelType`. The post goes to the channels collection of the service
and is the only transport call. -/
theorem CreateIPMessageChannel_form (twilio : Twilio)
    (serviceSid channelType friendlyName uniqueName : String) :
    ∃ formValues rest,
      (CreateIPMessageChannel twilio serviceSid channelType friendlyName uniqueName).trace
        = Event.post formValues (IPMsgURL ++ "/Services/" ++ serviceSid ++ "/Channels") :: rest ∧
      (∀ e ∈ rest, e.isTransportCall = false) ∧
      formValues.lookup "Type" = some [channelType] ∧
      formValues.lookup "FriendlyName"
        = (if friendlyName = "" then none else some [friendlyName]) ∧
      formValues.lookup "UniqueName" = (if uniqueName = "" then none else some [uniqueName]) ∧
      (∀ key, key ≠ "Type" → key ≠ "FriendlyName" → key ≠ "UniqueName" →
        formValues.lookup key = none) ∧
      (friendlyName = "" → uniqueName = "" → formValues = ⟨[("Type", [channelType])]⟩) := by
  unfold CreateIPMessageChannel
  simp only [keep_trace]
  obtain ⟨rest, ht, hrest⟩ := send_trace twilio
    ((if uniqueName ≠ "" then
        (if friendlyName ≠ "" then Values.empty.Set "FriendlyName" friendlyName
          else Values.empty).Set "UniqueName" uniqueName
      else (if friendlyName ≠ "" then Values.empty.Set "FriendlyName" friendlyName
          else Values.empty)).Set "Type" channelType)
    (IPMsgURL ++ "/Services/" ++ serviceSid ++ "/Channels") "POST" IPMessageChannel.store {}
  rw [dispatch_POST] at ht
  refine ⟨_, rest, ht, hrest, ?_⟩
  have hk : ∀ a key : String, key ≠ a → decide (a = key) = false := by
    intro a key hne
    simp [Ne.symm hne]
  by_cases hf : friendlyName = "" <;> by_cases hu : uniqueName = "" <;>
    simp +contextual [hf, hu, Values.empty, Values.Set, Values.lookup, setEntry, hk]

theorem SendIPMessage_trace (twilio : Twilio)
    (serviceSid channelSid memberSid body from_ : String) :
    (SendIPMessage twilio serviceSid channelSid memberSid body from_).trace
      = (sendIPMsgRequest twilio ((Values.empty.Set "Body" body).Set "From" from_)
          (IPMsgURL ++ "/Services/" ++ serviceSid ++ "/Channels/" ++ channelSid ++ "/Messages")
          "POST" IPMessage.store {}).trace := by
  unfold SendIPMessage
  simp only []
  split <;> rfl

/-- C4: the form `SendIPMessage` posts has exactly the keys `Body` (value
`body`) and `From` (value `from`); it has no `MemberSid` or `memberId` key, and
the whole run, request included, is the same for any two values of
`memberSid`. -/
theorem SendIPMessage_form (twilio : Twilio)
    (serviceSid channelSid memberSid body from_ : String) :
    ∃ formValues rest,
      (SendIPMessage twilio serviceSid channelSid memberSid body from_).trace
        = Event.post formValues
            (IPMsgURL ++ "/Services/" ++ serviceSid ++ "/Channels/" ++ channelSid ++ "/Messages")
          :: rest ∧
      (∀ e ∈ rest, e.isTransportCall = false) ∧
      formValues.lookup "Body" = some [body] ∧
      formValues.lookup "From" = some [from_] ∧
      (∀ key, key ≠ "Body" → key ≠ "From" → formValues.lookup key = none) ∧
      formValues.lookup "MemberSid" = none ∧
      formValues.lookup "memberId" = none ∧
      ∀ memberSid2,
        SendIPMessage twilio serviceSid channelSid memberSid2 body from_
          = SendIPMessage twilio serviceSid channelSid memberSid body from_ := by
  obtain ⟨rest, ht, hrest⟩ := send_trace twilio ((Values.empty.Set "Body" body).Set "From" from_)
    (IPMsgURL ++ "/Services/" ++ serviceSid ++ "/Channels/" ++ channelSid ++ "/Messages")
    "POST" IPMessage.store {}
  rw [dispatch_POST] at ht
  refine ⟨(Values.empty.Set "Body" body).Set "From" from_, rest, ?_, hrest, ?_⟩
  · rw [SendIPMessage_trace]
    exact ht
  · have hk : ∀ a key : String, key ≠ a → decide (a = key) = false := by
      intro a key hne
      simp [Ne.symm hne]
    refine ⟨?_, ?_, ?_, ?_, ?_, fun _ => rfl⟩ <;>
      simp +contextual [Values.empty, Values.Set, Values.lookup, setEntry, hk]

/-! ## List channels -/

/-- C5: `ListIPMessageChannels` makes exactly one transport call, a GET of the
base URL followed by `/Services/`, the service identifier as given, and
`/Channels`; and when the response has a status in [200, 300) and its body
decodes without error to an envelope, the operation returns that envelope's
channels, in order, and a nil error. -/
theorem ListIPMessageChannels_get (twilio : Twilio) (serviceSid : String) :
    (ListIPMessageChannels twilio serviceSid).trace.filter Event.isTransportCall
        = [Event.get ("https://ip-messaging.twilio.com/v1" ++ "/Services/" ++ serviceSid
            ++ "/Channels")] ∧
      ∀ (res : Response) (body : String) (envelope : ListIPMsgChanResp),
        twilio.get ("https://ip-messaging.twilio.com/v1" ++ "/Services/" ++ serviceSid
            ++ "/Channels") = (some res, none) →
        res.Body = Except.ok body →
        200 ≤ res.StatusCode → res.StatusCode < 300 →
        Unmarshal ListIPMsgChanResp.store body {} = (envelope, none) →
        (ListIPMessageChannels twilio serviceSid).outcome
          = Outcome.returned (envelope.Channels.elems, none) := by
  constructor
  · obtain ⟨rest, ht, hrest⟩ := send_trace twilio ⟨[]⟩
      (IPMsgURL ++ "/Services/" ++ serviceSid ++ "/Channels") "GET" ListIPMsgChanResp.store {}
    rw [dispatch_GET] at ht
    have hf : rest.filter Event.isTransportCall = [] := by
      rw [List.filter_eq_nil_iff]
      intro e he
      simp [hrest e he]
    unfold ListIPMessageChannels
    simp only [keep_trace]
    rw [ht]
    simp [List.filter_cons, Event.isTransportCall, hf, IPMsgURL]
  · intro res body envelope hg hb h1 h2 hu
    have hd : dispatch twilio ⟨[]⟩ (IPMsgURL ++ "/Services/" ++ serviceSid ++ "/Channels") "GET"
        = ([Event.get (IPMsgURL ++ "/Services/" ++ serviceSid ++ "/Channels")], some res, none) := by
      rw [dispatch_GET]
      simp only [IPMsgURL]
      rw [hg]
    unfold ListIPMessageChannels
    simp only []
    rw [send_2xx twilio ⟨[]⟩ _ "GET" ListIPMsgChanResp.store {} _ res body hd hb h1 h2]
    simp [keep, hu]

/-- C5 on a 200 response listing two channels. -/
theorem ListIPMessageChannels_get_witness :
    (ListIPMessageChannels
        (answering 200
          "\x7b\"meta\":\x7b\"page\":0,\"page_size\":50\x7d,\"channels\":[\x7b\"sid\":\"CH2\"\x7d,\x7b\"sid\":\"CH1\"\x7d]\x7d")
        "SVC1").outcome
      = Outcome.returned ([{ Sid := "CH2" }, { Sid := "CH1" }], none) :=
  (ListIPMessageChannels_get
    (answering 200
      "\x7b\"meta\":\x7b\"page\":0,\"page_size\":50\x7d,\"channels\":[\x7b\"sid\":\"CH2\"\x7d,\x7b\"sid\":\"CH1\"\x7d]\x7d")
    "SVC1").2
    ⟨200, Except.ok
      "\x7b\"meta\":\x7b\"page\":0,\"page_size\":50\x7d,\"channels\":[\x7b\"sid\":\"CH2\"\x7d,\x7b\"sid\":\"CH1\"\x7d]\x7d"⟩
    "\x7b\"meta\":\x7b\"page\":0,\"page_size\":50\x7d,\"channels\":[\x7b\"sid\":\"CH2\"\x7d,\x7b\"sid\":\"CH1\"\x7d]\x7d"
    { Meta := { Page := 0, PageSize := 50 },
      Channels := { elems := [{ Sid := "CH2" }, { Sid := "CH1" }] } }
    rfl rfl (by decide) (by decide) (by decide)

/-! ## Transport failure -/

/-- C7: when the transport call an operation makes fails with an error `e`,
the operation returns exactly `e` with a zero result, and its whole trace is
that one transport call: nothing is read or decoded and nothing is retried.
This holds for each of the five operations on its own call. -/
theorem transport_error_propagates (twilio : Twilio)
    (serviceSid channelSid channelType friendlyName uniqueName memberSid body from_ : String) :
    (∀ (res : Option Response) (e : GoError),
        twilio.get (IPMsgURL ++ "/Services/" ++ serviceSid ++ "/Channels") = (res, some e) →
        ListIPMessageChannels twilio serviceSid
          = ⟨[Event.get (IPMsgURL ++ "/Services/" ++ serviceSid ++ "/Channels")],
              Outcome.returned ([], some e)⟩) ∧
      (∀ (res : Option Response) (e : GoError),
        twilio.post
            ⟨(if friendlyName = "" then [] else [("FriendlyName", [friendlyName])])
              ++ (if uniqueName = "" then [] else [("UniqueName", [uniqueName])])
              ++ [("Type", [channelType])]⟩
            (IPMsgURL ++ "/Services/" ++ serviceSid ++ "/Channels") = (res, some e) →
        CreateIPMessageChannel twilio serviceSid channelType friendlyName uniqueName
          = ⟨[Event.post
                ⟨(if friendlyName = "" then [] else [("FriendlyName", [friendlyName])])
                  ++ (if uniqueName = "" then [] else [("UniqueName", [uniqueName])])
                  ++ [("Type", [channelType])]⟩
                (IPMsgURL ++ "/Services/" ++ serviceSid ++ "/Channels")],
              Outcome.returned ("", some e)⟩) ∧
      (∀ (res : Option Response) (e : GoError),
        twilio.delete (IPMsgURL ++ "/Services/" ++ serviceSid ++ "/Channels/" ++ channelSid)
          = (res, some e) →
        DeleteIPMessageChannel twilio serviceSid channelSid
          = ⟨[Event.delete
                (IPMsgURL ++ "/Services/" ++ serviceSid ++ "/Channels/" ++ channelSid)],
              Outcome.returned (some e)⟩) ∧
      (∀ (res : Option Response) (e : GoError),
        twilio.post ⟨[("Body", [body]), ("From", [from_])]⟩
            (IPMsgURL ++ "/Services/" ++ serviceSid ++ "/Channels/" ++ channelSid ++ "/Messages")
          = (res, some e) →
        SendIPMessage twilio serviceSid channelSid memberSid body from_
          = ⟨[Event.post ⟨[("Body", [body]), ("From", [from_])]⟩
                (IPMsgURL ++ "/Services/" ++ serviceSid ++ "/Channels/" ++ channelSid
                  ++ "/Messages")],
              Outcome.returned (some e)⟩) ∧
      (∀ (res : Option Response) (e : GoError),
        twilio.get
            (IPMsgURL ++ "/Services/" ++ serviceSid ++ "/Channels/" ++ channelSid ++ "/Messages")
          = (res, some e) →
        ListIPMessages twilio serviceSid channelSid
          = ⟨[Event.get
                (IPMsgURL ++ "/Services/" ++ serviceSid ++ "/Channels/" ++ channelSid
                  ++ "/Messages")],
              Outcome.returned ([], some e)⟩) := by
  refine ⟨?_, ?_, ?_, ?_, ?_⟩
  · intro res e h
    unfold ListIPMessageChannels
    simp only []
    rw [send_err twilio _ _ "GET" _ _ _ res e (by rw [dispatch_GET, h])]
    rfl
  · intro res e h
    rw [CreateIPMessageChannel_eq]
    rw [send_err twilio _ _ "POST" _ _ _ res e (by rw [dispatch_POST, h])]
    rfl
  · intro res e h
    unfold DeleteIPMessageChannel
    simp only [h]
  · intro res e h
    unfold SendIPMessage
    simp only []
    rw [SendIPMessage_form_eq]
    rw [send_err twilio _ _ "POST" _ _ _ res e (by rw [dispatch_POST, h])]
  · intro res e h
    unfold ListIPMessages
    simp only []
    rw [send_err twilio _ _ "GET" _ _ _ res e (by rw [dispatch_GET, h])]
    rfl

/-- C7 on a transport without connection, whose errors name the verb and the
URL of the call. -/
theorem transport_error_propagates_witness :
    ListIPMessageChannels refusing "SVC1"
        = ⟨[Event.get "https://ip-messaging.twilio.com/v1/Services/SVC1/Channels"],
            Outcome.returned ([], some (GoError.transport
              "Get https://ip-messaging.twilio.com/v1/Services/SVC1/Channels: connection refused"))⟩ ∧
      DeleteIPMessageChannel refusing "SVC1" "CH1"
        = ⟨[Event.delete "https://ip-messaging.twilio.com/v1/Services/SVC1/Channels/CH1"],
            Outcome.returned (some (GoError.transport
              "Delete https://ip-messaging.twilio.com/v1/Services/SVC1/Channels/CH1: connection refused"))⟩ ∧
      SendIPMessage refusing "SVC1" "CH1" "MB1" "hello" "alice"
        = ⟨[Event.post ⟨[("Body", ["hello"]), ("From", ["alice"])]⟩
              "https://ip-messaging.twilio.com/v1/Services/SVC1/Channels/CH1/Messages"],
            Outcome.returned (some (GoError.transport
              "Post https://ip-messaging.twilio.com/v1/Services/SVC1/Channels/CH1/Messages: connection refused"))⟩ :=
  have h := transport_error_propagates refusing "SVC1" "CH1" "public" "" "" "MB1" "hello" "alice"
  ⟨h.1 none _ rfl, h.2.2.1 none _ rfl, h.2.2.2.1 none _ rfl⟩

/-! ## The nil response -/

theorem send_no_panic {σ : Type} (twilio : Twilio) (fv : Values) (url method : String)
    (st : Store σ) (v : σ)
    (h : (dispatch twilio fv url method).2.1 ≠ none ∨ (dispatch twilio fv url method).2.2 ≠ none) :
    (sendIPMsgRequest twilio fv url method st v).outcome ≠ Outcome.panicked := by
  rcases hd : dispatch twilio fv url method with ⟨evs, res, err⟩
  rw [hd] at h
  cases err with
  | some e => simp [send_err twilio fv url method st v evs res e hd]
  | none =>
    cases res with
    | none => simp at h
    | some res =>
      cases hb : res.Body with
      | error e => simp [send_readErr twilio fv url method st v evs res e hd hb]
      | ok body =>
        by_cases hs : res.StatusCode < 200 ∨ 300 ≤ res.StatusCode
        · simp [send_non2xx twilio fv url method st v evs res body hd hb hs]
        · simp [send_2xx twilio fv url method st v evs res body hd hb (by omega) (by omega)]

theorem send_head_GET {σ : Type} (twilio : Twilio) (fv : Values) (url : String)
    (st : Store σ) (v : σ) :
    (sendIPMsgRequest twilio fv url "GET" st v).trace.head? = some (Event.get url) := by
  obtain ⟨rest, ht, _⟩ := send_trace twilio fv url "GET" st v
  rw [ht, dispatch_GET]
  rfl

theorem send_head_POST {σ : Type} (twilio : Twilio) (fv : Values) (url : String)
    (st : Store σ) (v : σ) :
    (sendIPMsgRequest twilio fv url "POST" st v).trace.head? = some (Event.post fv url) := by
  obtain ⟨rest, ht, _⟩ := send_trace twilio fv url "POST" st v
  rw [ht, dispatch_POST]
  rfl

theorem keep_no_panic {σ α : Type} (f : σ → α)
    (r : Run (σ × Option Exception × Option GoError)) (h : r.outcome ≠ Outcome.panicked) :
    (keep f r).outcome ≠ Outcome.panicked := by
  unfold keep
  cases hr : r.outcome with
  | returned x => simp
  | panicked => exact absurd hr h

/-- C10: `sendIPMsgRequest` called with a method other than `POST` and `GET` makes
no transport call and panics on the nil response. Each of the four public
operations that use it starts with the GET or POST it asked for, and when the
transport never answers with both a nil response and a nil error, none of
them panics. -/
theorem nil_response_unreachable (twilio : Twilio)
    (hpost : ∀ fv url, (twilio.post fv url).1 ≠ none ∨ (twilio.post fv url).2 ≠ none)
    (hget : ∀ url, (twilio.get url).1 ≠ none ∨ (twilio.get url).2 ≠ none)
    (serviceSid channelSid channelType friendlyName uniqueName memberSid body from_ : String) :
    (∀ (σ : Type) (fv : Values) (url method : String) (st : Store σ) (v : σ),
        method ≠ "POST" → method ≠ "GET" →
        sendIPMsgRequest twilio fv url method st v = ⟨[], Outcome.panicked⟩) ∧
      (∃ url, (ListIPMessageChannels twilio serviceSid).trace.head? = some (Event.get url)) ∧
      (∃ fv url,
        (CreateIPMessageChannel twilio serviceSid channelType friendlyName uniqueName).trace.head?
          = some (Event.post fv url)) ∧
      (∃ fv url,
        (SendIPMessage twilio serviceSid channelSid memberSid body from_).trace.head?
          = some (Event.post fv url)) ∧
      (∃ url, (ListIPMessages twilio serviceSid channelSid).trace.head? = some (Event.get url)) ∧
      (ListIPMessageChannels twilio serviceSid).outcome ≠ Outcome.panicked ∧
      (CreateIPMessageChannel twilio serviceSid channelType friendlyName uniqueName).outcome
        ≠ Outcome.panicked ∧
      (SendIPMessage twilio serviceSid channelSid memberSid body from_).outcome
        ≠ Outcome.panicked ∧
      (ListIPMessages twilio serviceSid channelSid).outcome ≠ Outcome.panicked := by
  have t1 : ∃ url, (ListIPMessageChannels twilio serviceSid).trace.head?
      = some (Event.get url) :=
    ⟨_, by
      unfold ListIPMessageChannels
      simp only [keep_trace]
      exact send_head_GET twilio _ _ _ _⟩
  have t2 : ∃ fv url,
      (CreateIPMessageChannel twilio serviceSid channelType friendlyName uniqueName).trace.head?
        = some (Event.post fv url) :=
    ⟨_, _, by
      unfold CreateIPMessageChannel
      simp only [keep_trace]
      exact send_head_POST twilio _ _ _ _⟩
  have t3 : ∃ fv url,
      (SendIPMessage twilio serviceSid channelSid memberSid body from_).trace.head?
        = some (Event.post fv url) :=
    ⟨_, _, by
      rw [SendIPMessage_trace]
      exact send_head_POST twilio _ _ _ _⟩
  have t4 : ∃ url, (ListIPMessages twilio serviceSid channelSid).trace.head?
      = some (Event.get url) :=
    ⟨_, by
      unfold ListIPMessages
      simp only [keep_trace]
      exact send_head_GET twilio _ _ _ _⟩
  refine ⟨?_, t1, t2, t3, t4, ?_, ?_, ?_, ?_⟩
  · intro σ fv url method st v h1 h2
    exact send_nil twilio fv url method st v [] (by simp [dispatch, h1, h2])
  · unfold ListIPMessageChannels
    exact keep_no_panic _ _ (send_no_panic _ _ _ _ _ _ (by rw [dispatch_GET]; exact hget _))
  · unfold CreateIPMessageChannel
    exact keep_no_panic _ _ (send_no_panic _ _ _ _ _ _ (by rw [dispatch_POST]; exact hpost _ _))
  · unfold SendIPMessage
    simp only []
    have h := send_no_panic twilio ((Values.empty.Set "Body" body).Set "From" from_)
      (IPMsgURL ++ "/Services/" ++ serviceSid ++ "/Channels/" ++ channelSid ++ "/Messages")
      "POST" IPMessage.store {} (by rw [dispatch_POST]; exact hpost _ _)
    split
    · simp
    · next hp => exact absurd hp h
  · unfold ListIPMessages
    exact keep_no_panic _ _ (send_no_panic _ _ _ _ _ _ (by rw [dispatch_GET]; exact hget _))

/-- C10 on a transport that answers 200 with the body `null`: the DELETE method
given to `sendIPMsgRequest` panics, the public operations return. -/
theorem nil_response_unreachable_witness :
    sendIPMsgRequest (answering 200 "null") Values.empty "u" "DELETE" IPMessage.store {}
        = ⟨[], Outcome.panicked⟩ ∧
      (SendIPMessage (answering 200 "null") "SVC1" "CH1" "MB1" "hello" "alice").outcome
        ≠ Outcome.panicked :=
  have h := nil_response_unreachable (answering 200 "null")
    (fun _ _ => Or.inl (by simp [answering])) (fun _ => Or.inl (by simp [answering]))
    "SVC1" "CH1" "public" "" "" "MB1" "hello" "alice"
  ⟨h.1 IPMessage Values.empty "u" "DELETE" IPMessage.store {} (by decide) (by decide),
    h.2.2.2.2.2.2.2.1⟩

/-! ## Error bodies -/

theorem Unmarshal_invalid {σ : Type} (st : Store σ) (body : String) (v : σ)
    (h : parseJSON body = none) : Unmarshal st body v = (v, some GoError.SyntaxError) := by
  simp [Unmarshal, h]

/-- C6: when the call an operation makes is answered with a status outside
[200, 300) and a body that is not valid JSON, the operation returns (it does
not panic) with a zero result and the non-nil syntax error of the failed
decode. This holds for each of `ListIPMessageChannels`, `CreateIPMessageChannel`,
`SendIPMessage` and `ListIPMessages` on its own call. -/
theorem invalid_error_body_reports_error (twilio : Twilio) (res : Response) (body : String)
    (hb : res.Body = Except.ok body)
    (hs : res.StatusCode < 200 ∨ 300 ≤ res.StatusCode)
    (hj : parseJSON body = none)
    (serviceSid channelSid channelType friendlyName uniqueName memberSid from_ text : String) :
    (twilio.get (IPMsgURL ++ "/Services/" ++ serviceSid ++ "/Channels") = (some res, none) →
        (ListIPMessageChannels twilio serviceSid).outcome
          = Outcome.returned ([], some GoError.SyntaxError)) ∧
      (twilio.post
            ⟨(if friendlyName = "" then [] else [("FriendlyName", [friendlyName])])
              ++ (if uniqueName = "" then [] else [("UniqueName", [uniqueName])])
              ++ [("Type", [channelType])]⟩
            (IPMsgURL ++ "/Services/" ++ serviceSid ++ "/Channels") = (some res, none) →
        (CreateIPMessageChannel twilio serviceSid channelType friendlyName uniqueName).outcome
          = Outcome.returned ("", some GoError.SyntaxError)) ∧
      (twilio.post ⟨[("Body", [text]), ("From", [from_])]⟩
            (IPMsgURL ++ "/Services/" ++ serviceSid ++ "/Channels/" ++ channelSid ++ "/Messages")
          = (some res, none) →
        (SendIPMessage twilio serviceSid channelSid memberSid text from_).outcome
          = Outcome.returned (some GoError.SyntaxError)) ∧
      (twilio.get
            (IPMsgURL ++ "/Services/" ++ serviceSid ++ "/Channels/" ++ channelSid ++ "/Messages")
          = (some res, none) →
        (ListIPMessages twilio serviceSid channelSid).outcome
          = Outcome.returned ([], some GoError.SyntaxError)) := by
  refine ⟨?_, ?_, ?_, ?_⟩
  · intro h
    unfold ListIPMessageChannels
    simp only []
    rw [send_non2xx twilio _ _ "GET" _ _ _ res body (by rw [dispatch_GET, h]) hb hs]
    simp [keep, Unmarshal_invalid _ _ _ hj]
  · intro h
    rw [CreateIPMessageChannel_eq]
    rw [send_non2xx twilio _ _ "POST" _ _ _ res body (by rw [dispatch_POST, h]) hb hs]
    simp [keep, Unmarshal_invalid _ _ _ hj]
  · intro h
    unfold SendIPMessage
    simp only []
    rw [SendIPMessage_form_eq]
    rw [send_non2xx twilio _ _ "POST" _ _ _ res body (by rw [dispatch_POST, h]) hb hs]
    simp [Unmarshal_invalid _ _ _ hj]
  · intro h
    unfold ListIPMessages
    simp only []
    rw [send_non2xx twilio _ _ "GET" _ _ _ res body (by rw [dispatch_GET, h]) hb hs]
    simp [keep, Unmarshal_invalid _ _ _ hj]

/-- C6 on status 500 with the body `Internal Server Error`. -/
theorem invalid_error_body_reports_error_witness :
    (ListIPMessageChannels (answering 500 "Internal Server Error") "SVC1").outcome
        = Outcome.returned ([], some GoError.SyntaxError) ∧
      (CreateIPMessageChannel (answering 500 "Internal Server Error") "SVC1" "public" "" "").outcome
        = Outcome.returned ("", some GoError.SyntaxError) ∧
      (SendIPMessage (answering 500 "Internal Server Error") "SVC1" "CH1" "MB1" "hello"
          "alice").outcome
        = Outcome.returned (some GoError.SyntaxError) ∧
      (ListIPMessages (answering 500 "Internal Server Error") "SVC1" "CH1").outcome
        = Outcome.returned ([], some GoError.SyntaxError) :=
  have h := invalid_error_body_reports_error (answering 500 "Internal Server Error")
    ⟨500, Except.ok "Internal Server Error"⟩ "Internal Server Error" rfl (by decide) rfl
    "SVC1" "CH1" "public" "" "" "MB1" "alice" "hello"
  ⟨h.1 rfl, h.2.1 rfl, h.2.2.1 rfl, h.2.2.2 rfl⟩

/-- C2: on status 404 with the body `{"code":20404,"message":"not found"}`,
`sendIPMsgRequest` decodes the exception with code 20404 and a nil decode error;
`ListIPMessages` drops the exception and returns an empty sequence with a nil
error. -/
theorem ListIPMessages_404_returns_nil_error :
    (sendIPMsgRequest (answering 404 "\x7b\"code\":20404,\"message\":\"not found\"\x7d")
        ⟨[]⟩ "https://ip-messaging.twilio.com/v1/Services/SVC1/Channels/CH1/Messages" "GET"
        ListIPMsgResp.store {}).outcome
        = Outcome.returned ({}, some { Code := 20404, Message := "not found" }, none) ∧
      ListIPMessages (answering 404 "\x7b\"code\":20404,\"message\":\"not found\"\x7d")
          "SVC1" "CH1"
        = ⟨[Event.get "https://ip-messaging.twilio.com/v1/Services/SVC1/Channels/CH1/Messages",
            Event.readAll,
            Event.unmarshal "\x7b\"code\":20404,\"message\":\"not found\"\x7d"],
          Outcome.returned ([], none)⟩ := by
  constructor <;> decide

/-! ## Decode failure on the success path -/

theorem Unmarshal_notAnObject {σ : Type} (goType : String) (fs : List (Field σ))
    (body : String) (v : σ) (h : notAnObject body = true) :
    (Unmarshal (storeStruct goType fs) body v).1 = v ∧
      (Unmarshal (storeStruct goType fs) body v).2 ≠ none := by
  unfold notAnObject at h
  unfold Unmarshal
  cases hp : parseJSON body with
  | none => simp
  | some j =>
    rw [hp] at h
    cases j <;> simp_all [storeStruct]

/-- C8, as stated, fails: a 200 response whose body has a mistyped member makes
`ListIPMessageChannels` and `CreateIPMessageChannel` return the decode error
together with the part that did decode. -/
theorem decode_error_with_partial_result :
    (ListIPMessageChannels
        (answering 200 "\x7b\"channels\":[\x7b\"sid\":\"CH1\"\x7d],\"meta\":5\x7d") "SVC1").outcome
        = Outcome.returned ([{ Sid := "CH1" }],
            some (GoError.UnmarshalTypeError "number" "gotwilio.IPMessageMeta")) ∧
      (CreateIPMessageChannel (answering 201 "\x7b\"sid\":\"CH1\",\"type\":5\x7d")
          "SVC1" "public" "" "").outcome
        = Outcome.returned ("CH1", some (GoError.UnmarshalTypeError "number" "string")) := by
  constructor <;> decide

/-- C8, amended: when the call an operation makes is answered with a status
in [200, 300), `ListIPMessageChannels`, `ListIPMessages` and
`CreateIPMessageChannel` return a non-nil decode error exactly when the body
does not match the expected shape, and the syntax error when the body is not
valid JSON. The result is empty when the body is not valid JSON or its
top-level value is neither an object nor `null`; when it is an object, the
members whose value has the wrong kind for their field are skipped, and the
result is the one the other members decode to. -/
theorem decode_failure_on_success_path (twilio : Twilio) (res : Response) (body : String)
    (hb : res.Body = Except.ok body)
    (h1 : 200 ≤ res.StatusCode) (h2 : res.StatusCode < 300)
    (serviceSid channelSid channelType friendlyName uniqueName : String) :
    (twilio.get (IPMsgURL ++ "/Services/" ++ serviceSid ++ "/Channels") = (some res, none) →
        ∃ channels err,
          (ListIPMessageChannels twilio serviceSid).outcome = Outcome.returned (channels, err) ∧
          (err = none ↔ matchesShape ListIPMsgChanResp.shape body = true) ∧
          (parseJSON body = none → err = some GoError.SyntaxError) ∧
          (notAnObject body = true → channels = []) ∧
          ∀ members, parseJSON body = some (JSON.obj members) →
            channels = (ListIPMsgChanResp.store
              (JSON.obj (wellKinded ListIPMsgChanResp.fields envelopeKind members))
              {}).1.Channels.elems) ∧
      (twilio.get
            (IPMsgURL ++ "/Services/" ++ serviceSid ++ "/Channels/" ++ channelSid ++ "/Messages")
          = (some res, none) →
        ∃ messages err,
          (ListIPMessages twilio serviceSid channelSid).outcome
            = Outcome.returned (messages, err) ∧
          (err = none ↔ matchesShape ListIPMsgResp.shape body = true) ∧
          (parseJSON body = none → err = some GoError.SyntaxError) ∧
          (notAnObject body = true → messages = []) ∧
          ∀ members, parseJSON body = some (JSON.obj members) →
            messages = (ListIPMsgResp.store
              (JSON.obj (wellKinded ListIPMsgResp.fields envelopeKind members))
              {}).1.Messages.elems) ∧
      (twilio.post
            ⟨(if friendlyName = "" then [] else [("FriendlyName", [friendlyName])])
              ++ (if uniqueName = "" then [] else [("UniqueName", [uniqueName])])
              ++ [("Type", [channelType])]⟩
            (IPMsgURL ++ "/Services/" ++ serviceSid ++ "/Channels") = (some res, none) →
        ∃ sid err,
          (CreateIPMessageChannel twilio serviceSid channelType friendlyName uniqueName).outcome
            = Outcome.returned (sid, err) ∧
          (err = none ↔ matchesShape IPMessageChannel.shape body = true) ∧
          (parseJSON body = none → err = some GoError.SyntaxError) ∧
          (notAnObject body = true → sid = "") ∧
          ∀ members, parseJSON body = some (JSON.obj members) →
            sid = (IPMessageChannel.store
              (JSON.obj (wellKinded IPMessageChannel.fields IPMessageChannel.accepts members))
              {}).1.Sid) := by
  refine ⟨?_, ?_, ?_⟩
  · intro h
    refine ⟨(Unmarshal ListIPMsgChanResp.store body {}).1.Channels.elems,
      (Unmarshal ListIPMsgChanResp.store body {}).2, ?_, ?_, ?_, ?_, ?_⟩
    · unfold ListIPMessageChannels
      exact keep_send_2xx _ twilio _ _ "GET" _ _ _ res body (by rw [dispatch_GET, h]) hb h1 h2
    · exact Unmarshal_err _ _ ListIPMsgChanResp_store_err body _
    · intro hj
      rw [Unmarshal_invalid _ _ _ hj]
    · intro hn
      unfold ListIPMsgChanResp.store
      rw [(Unmarshal_notAnObject _ _ body _ hn).1]
    · intro members hp
      unfold Unmarshal
      rw [hp]
      unfold ListIPMsgChanResp.store
      rw [storeStruct_skip _ _ envelopeKind ListIPMsgChanResp_field_skip]
  · intro h
    refine ⟨(Unmarshal ListIPMsgResp.store body {}).1.Messages.elems,
      (Unmarshal ListIPMsgResp.store body {}).2, ?_, ?_, ?_, ?_, ?_⟩
    · unfold ListIPMessages
      exact keep_send_2xx _ twilio _ _ "GET" _ _ _ res body (by rw [dispatch_GET, h]) hb h1 h2
    · exact Unmarshal_err _ _ ListIPMsgResp_store_err body _
    · intro hj
      rw [Unmarshal_invalid _ _ _ hj]
    · intro hn
      unfold ListIPMsgResp.store
      rw [(Unmarshal_notAnObject _ _ body _ hn).1]
    · intro members hp
      unfold Unmarshal
      rw [hp]
      unfold ListIPMsgResp.store
      rw [storeStruct_skip _ _ envelopeKind ListIPMsgResp_field_skip]
  · intro h
    refine ⟨(Unmarshal IPMessageChannel.store body {}).1.Sid,
      (Unmarshal IPMessageChannel.store body {}).2, ?_, ?_, ?_, ?_, ?_⟩
    · rw [CreateIPMessageChannel_eq]
      exact keep_send_2xx _ twilio _ _ "POST" _ _ _ res body (by rw [dispatch_POST, h]) hb h1 h2
    · exact Unmarshal_err _ _ IPMessageChannel_store_err body _
    · intro hj
      rw [Unmarshal_invalid _ _ _ hj]
    · intro hn
      unfold IPMessageChannel.store
      rw [(Unmarshal_notAnObject _ _ body _ hn).1]
    · intro members hp
      unfold Unmarshal
      rw [hp]
      unfold IPMessageChannel.store
      rw [storeStruct_skip _ _ IPMessageChannel.accepts IPMessageChannel_field_skip]

/-- C8, amended, on a 200 response whose `meta` member is a number: the decode
error is non-nil and the one channel of the body is returned; and on a 200
response whose body is the array `[1,2]`: the result is empty. -/
theorem decode_failure_on_success_path_witness :
    (∃ err,
        (ListIPMessageChannels
          (answering 200 "\x7b\"channels\":[\x7b\"sid\":\"CH1\"\x7d],\"meta\":5\x7d")
          "SVC1").outcome = Outcome.returned ([{ Sid := "CH1" }], err) ∧ err ≠ none) ∧
      ∃ err,
        (CreateIPMessageChannel (answering 200 "[1,2]") "SVC1" "public" "" "").outcome
          = Outcome.returned ("", err) ∧ err ≠ none := by
  obtain ⟨channels, err, ho, hs, _, _, hm⟩ :=
    (decode_failure_on_success_path
      (answering 200 "\x7b\"channels\":[\x7b\"sid\":\"CH1\"\x7d],\"meta\":5\x7d")
      ⟨200, Except.ok "\x7b\"channels\":[\x7b\"sid\":\"CH1\"\x7d],\"meta\":5\x7d"⟩
      "\x7b\"channels\":[\x7b\"sid\":\"CH1\"\x7d],\"meta\":5\x7d" rfl (by decide) (by decide)
      "SVC1" "CH1" "public" "" "").1 rfl
  obtain ⟨sid, err2, ho2, hs2, _, hn2, _⟩ :=
    (decode_failure_on_success_path (answering 200 "[1,2]") ⟨200, Except.ok "[1,2]"⟩ "[1,2]"
      rfl (by decide) (by decide) "SVC1" "CH1" "public" "" "").2.2 rfl
  refine ⟨⟨err, ?_, ?_⟩, ⟨err2, ?_, ?_⟩⟩
  · rw [ho, hm _ rfl]
    rfl
  · intro he
    exact absurd (hs.mp he) (by decide)
  · rw [ho2, hn2 (by decide)]
  · intro he
    exact absurd (hs2.mp he) (by decide)

/-! ## The channel's timestamps -/

theorem typeFields_channel_names :
    (typeFields IPMessageChannel.fields).map (fun f => f.name)
      = ["sid", "account_sid", "service_sid", "friendly_name", "attributes", "type",
          "created_by", "url"] := by
  decide

theorem object_preserves {σ : Type} (P : σ → Prop) (fs : List (Field σ))
    (hfs : ∀ f ∈ fs, ∀ j v, P v → P (f.store j v).1) :
    ∀ (members : List (String × JSON)) (v : σ) (saved : Option GoError),
      P v → P (object fs members v saved).1 := by
  intro members
  induction members with
  | nil => intro v saved hv; exact hv
  | cons m rest ih =>
    intro v saved hv
    obtain ⟨key, j⟩ := m
    unfold object
    cases hf : findField fs key with
    | none => exact ih v saved hv
    | some f =>
      have hmem : f ∈ fs := by
        unfold findField at hf
        cases h1 : fs.find? (fun f => decide (f.name = key)) with
        | some g =>
          rw [h1] at hf
          cases hf
          exact List.mem_of_find?_eq_some h1
        | none =>
          rw [h1] at hf
          exact List.mem_of_find?_eq_some hf
      exact ih _ _ (hfs f hmem j v hv)

/-- Whatever JSON value is decoded into a channel, its two timestamps stay as
they were: no member of any object reaches `DateCreated` or `DateUpdated`. -/
theorem IPMessageChannel_store_keeps_timestamps (j : JSON) (cur : IPMessageChannel) :
    (IPMessageChannel.store j cur).1.DateCreated = cur.DateCreated ∧
      (IPMessageChannel.store j cur).1.DateUpdated = cur.DateUpdated := by
  unfold IPMessageChannel.store
  cases j with
  | obj members =>
    unfold storeStruct
    refine object_preserves
      (fun v => v.DateCreated = cur.DateCreated ∧ v.DateUpdated = cur.DateUpdated)
      (typeFields IPMessageChannel.fields) ?_ members cur none ⟨rfl, rfl⟩
    intro f hf j v hv
    have hfs : typeFields IPMessageChannel.fields
        = [IPMessageChannel.fields.get ⟨0, by decide⟩, IPMessageChannel.fields.get ⟨1, by decide⟩,
            IPMessageChannel.fields.get ⟨2, by decide⟩, IPMessageChannel.fields.get ⟨3, by decide⟩,
            IPMessageChannel.fields.get ⟨4, by decide⟩, IPMessageChannel.fields.get ⟨5, by decide⟩,
            IPMessageChannel.fields.get ⟨8, by decide⟩, IPMessageChannel.fields.get ⟨9, by decide⟩] := by
      rfl
    rw [hfs] at hf
    simp only [List.mem_cons, List.mem_singleton, List.not_mem_nil, or_false] at hf
    rcases hf with h | h | h | h | h | h | h | h <;> subst h <;>
      simpa [IPMessageChannel.fields, mkField] using hv
  | null => simp [storeStruct]
  | bool b => simp [storeStruct]
  | num l => simp [storeStruct]
  | str s => simp [storeStruct]
  | arr xs => simp [storeStruct]

/-- C9: every text decoded into a fresh channel leaves `DateCreated` and
`DateUpdated` empty, and a channel object with `date_created` and
`date_updated` decodes without error into a channel whose two timestamps are
empty: both fields are tagged `date_created`, so the decoder uses neither, and
no field is tagged `date_updated`. -/
theorem IPMessageChannel_timestamps_not_decoded :
    (∀ body : String,
        (Unmarshal IPMessageChannel.store body {}).1.DateCreated = "" ∧
          (Unmarshal IPMessageChannel.store body {}).1.DateUpdated = "") ∧
      Unmarshal IPMessageChannel.store
        "\x7b\"sid\":\"CH1\",\"date_created\":\"2016-03-01T10:00:00Z\",\"date_updated\":\"2016-03-02T11:30:00Z\"\x7d"
        {}
        = ({ Sid := "CH1", DateCreated := "", DateUpdated := "" }, none) ∧
      (ListIPMessageChannels
          (answering 200
            "\x7b\"channels\":[\x7b\"sid\":\"CH1\",\"date_created\":\"2016-03-01T10:00:00Z\",\"date_updated\":\"2016-03-02T11:30:00Z\"\x7d]\x7d")
          "SVC1").outcome
        = Outcome.returned ([{ Sid := "CH1", DateCreated := "", DateUpdated := "" }], none) := by
  refine ⟨?_, by decide, by decide⟩
  intro body
  unfold Unmarshal
  cases parseJSON body with
  | none => exact ⟨rfl, rfl⟩
  | some j => exact IPMessageChannel_store_keeps_timestamps j {}

end Gotwilio
